import Mathlib

/-!
Verification development for the SyntaxShift translation pipeline
(`backend/src`): token/lexer layer, semantic analyzer, IR generator and
code generators, shallowly embedded from the Python sources.

Conventions used throughout the embedding:
* Python `None`-able values become `Option`; Python exceptions become
  `Except` results carrying the exception text.
* Machine strings stay `String`; character scanning works on `List Char`.
* Loops are embedded as fuel-indexed recursions; every driver supplies a
  fuel that exceeds the number of loop iterations an input can cause, and
  running out of fuel is a distinguished error that no theorem below ever
  treats as normal behaviour.
* Python `line`/`column` counters are embedded as integers because the
  source computes `self.column - len(str(value))`, which can be negative.
-/

namespace SyShift

/-- Single-quote character, written via its code point. -/
def squote : Char := Char.ofNat 39

/-- Opening-brace character, written via its code point. -/
def lbrace : Char := Char.ofNat 123

/-- Closing-brace character, written via its code point. -/
def rbrace : Char := Char.ofNat 125

/-- Python `str.lower()` restricted to ASCII (all names this system
lowers are ASCII). -/
def pyCharLower (c : Char) : Char :=
  if 65 ≤ c.toNat ∧ c.toNat ≤ 90 then Char.ofNat (c.toNat + 32) else c

/-- ASCII `str.lower()` on strings. -/
def strLower (s : String) : String := String.mk (s.toList.map pyCharLower)

/-- Does `needle` occur at the head of `hay`? (List-level helper used to
model the Python substring operator `in`.) -/
def leadMatch : List Char → List Char → Bool
  | [], _ => true
  | _ :: _, [] => false
  | n :: ns, h :: hs => n == h && leadMatch ns hs

/-- Does `needle` occur anywhere inside `hay`? Models Python
`needle in hay` on strings. -/
def subMatch (needle : List Char) : List Char → Bool
  | [] => leadMatch needle []
  | h :: hs => leadMatch needle (h :: hs) || subMatch needle hs

/-- Python `needle in hay` for strings. -/
def strHasSub (hay needle : String) : Bool :=
  subMatch needle.toList hay.toList

/-! ## Token layer (`lexer/token.py`) -/

/-- `TokenType` enumeration, verbatim from `token.py`. -/
inductive TokenType where
  | EOF
  | INTEGER | FLOAT | STRING | F_STRING | CHAR | IDENTIFIER
  | KEYWORD
  | PLUS | MINUS | MULTIPLY | DIVIDE | MODULO | POWER | FLOOR_DIVIDE
  | ASSIGN | PLUS_ASSIGN | MINUS_ASSIGN | INCREMENT | DECREMENT
  | LSHIFT | RSHIFT
  | EQUAL | NOT_EQUAL | LESS_THAN | GREATER_THAN | LESS_EQUAL | GREATER_EQUAL
  | AND | OR | NOT
  | LPAREN | RPAREN | LBRACE | RBRACE | LBRACKET | RBRACKET
  | COMMA | SEMICOLON | COLON | DOT
  | DOUBLE_COLON | ARROW | INDENT | DEDENT | NEWLINE
  deriving Repr, DecidableEq

/-- One part of an f-string payload: a `('string', txt)` or `('expr', txt)`
tuple in the Python lexer. -/
inductive FPart where
  | stringPart (txt : String)
  | exprPart (txt : String)
  deriving Repr, DecidableEq

/-- Discriminated token payload (`Token.value` is `Any` in the source).
Python float literals are represented by their literal text: no claim
below depends on IEEE evaluation of the literal. -/
inductive PyValue where
  | none
  | int (n : Int)
  | str (s : String)
  | fstr (parts : List FPart)
  deriving Repr, DecidableEq

/-- Python `str(value)` restricted to the payloads that ever reach
`make_token` (strings only in the sources; the other branches are given
their Python spellings for totality). -/
def PyValue.pyStr : PyValue → String
  | .none => "None"
  | .int n => toString n
  | .str s => s
  | .fstr _ => ""

/-- `Token` dataclass: `{type, value, line, column}`. -/
structure Token where
  type : TokenType
  value : PyValue
  line : Int
  column : Int
  deriving Repr, DecidableEq

/-- `PYTHON_KEYWORDS` from `token.py`. -/
def PYTHON_KEYWORDS : List String :=
  ["and", "as", "assert", "break", "class", "continue", "def", "del", "elif",
   "else", "except", "finally", "for", "from", "global", "if", "import", "in",
   "is", "lambda", "nonlocal", "not", "or", "pass", "raise", "return", "try",
   "while", "with", "yield", "True", "False", "None"]

/-! ## Base lexer (`lexer/base_lexer.py`) and the Variant-P lexer
(`lexer/python_lexer.py`).

The lexer state carries the cursor of `BaseLexer` plus the
`indent_stack` field added by `PythonLexer` (top of stack first; the
Python list keeps the top last).  `current_char` is derived:
`self.current_char` always equals `source[pos]` when `pos < len` and
`None` otherwise. -/

structure LexSt where
  source : List Char
  pos : Nat
  line : Int
  column : Int
  indentStack : List Nat
  deriving Repr, DecidableEq

/-- `self.current_char`. -/
def LexSt.cur (s : LexSt) : Option Char := s.source[s.pos]?

/-- `BaseLexer.advance`: `pos += 1`; the column advances only while the
new position is still inside the text. -/
def LexSt.advance (s : LexSt) : LexSt :=
  if s.pos + 1 < s.source.length then
    { s with pos := s.pos + 1, column := s.column + 1 }
  else
    { s with pos := s.pos + 1 }

/-- `BaseLexer.peek(offset)`. -/
def LexSt.peek (s : LexSt) (offset : Nat) : Option Char :=
  s.source[s.pos + offset]?

/-- Errors a lexer run can produce.  `typeErr`/`indexErr` model the
uncaught Python exceptions reachable in `tokenize`; `fuel` is the
embedding artefact for exhausted fuel (never reached by the drivers). -/
inductive LexErr where
  | typeErr (msg : String)
  | indexErr (msg : String)
  | fuel
  deriving Repr, DecidableEq

/-- Message of the `TypeError` raised by `None in ' \t'`. -/
def noneInStrMsg : String :=
  "\x27in <string>\x27 requires string as left operand, not NoneType"

/-- Message of the `TypeError` raised by `result += None`. -/
def concatNoneMsg : String :=
  "can only concatenate str (not \x22NoneType\x22) to str"

/-- `BaseLexer.make_token`: token at `(line, column - len(str(value)))`. -/
def makeToken (s : LexSt) (t : TokenType) (v : PyValue) : Token :=
  { type := t, value := v, line := s.line,
    column := s.column - (v.pyStr.length : Int) }

/-- `PythonLexer.skip_whitespace_inline`: skip spaces and tabs. -/
def skipWSInline : Nat → LexSt → LexSt
  | 0, s => s
  | f + 1, s =>
    match s.cur with
    | some c => if c = ' ' ∨ c = '\t' then skipWSInline f s.advance else s
    | none => s

/-- `BaseLexer.skip_line`: skip to the next newline. -/
def skipLine : Nat → LexSt → LexSt
  | 0, s => s
  | f + 1, s =>
    match s.cur with
    | some c => if c ≠ '\n' then skipLine f s.advance else s
    | none => s

/-- Digit accumulator for `int(result)`. -/
def digitsToNat (l : List Char) : Nat :=
  l.foldl (fun acc c => 10 * acc + (c.toNat - 48)) 0

/-- `BaseLexer.read_number`: greedy digits with at most one decimal
point; a second `.` terminates the number.  Returns the accumulated
literal text together with the float flag, exactly as the Python loop
accumulates `result` and `is_float`. -/
def readNumberGo : Nat → LexSt → String → Bool → (String × Bool × LexSt)
  | 0, s, acc, isF => (acc, isF, s)
  | f + 1, s, acc, isF =>
    match s.cur with
    | some c =>
      if c.isDigit ∨ c = '.' then
        if c = '.' ∧ isF then (acc, isF, s)   -- second decimal point: break
        else readNumberGo f s.advance (acc.push c) (isF ∨ c = '.')
      else (acc, isF, s)
    | none => (acc, isF, s)

/-- `BaseLexer.read_number` wrapper producing the token. -/
def readNumber (f : Nat) (s : LexSt) : Token × LexSt :=
  let startLine := s.line
  let startCol := s.column
  let r := readNumberGo f s "" false
  if r.2.1 then
    ({ type := .FLOAT, value := .str r.1, line := startLine, column := startCol }, r.2.2)
  else
    ({ type := .INTEGER, value := .int (digitsToNat r.1.toList), line := startLine,
       column := startCol }, r.2.2)

/-- Escape translation inside `read_string`; `none` means the escaped
character is absent (end of input), where the Python code crashes with
`result += None`. -/
def readStringGo : Nat → Char → LexSt → String → Except LexErr (String × LexSt)
  | 0, _, s, acc => .ok (acc, s)
  | f + 1, q, s, acc =>
    match s.cur with
    | none => .ok (acc, s)
    | some c =>
      if c = q then .ok (acc, s)
      else if c = '\\' then
        let s1 := s.advance
        match s1.cur with
        | none => .error (.typeErr concatNoneMsg)  -- `result += self.current_char` with None
        | some e =>
          let mapped :=
            if e = 'n' then '\n' else if e = 't' then '\t'
            else if e = 'r' then '\r' else if e = '\\' then '\\'
            else if e = '"' then '"' else if e = squote then squote
            else e
          readStringGo f q s1.advance (acc.push mapped)
      else readStringGo f q s.advance (acc.push c)

/-- `BaseLexer.read_string`: quote-delimited string with escapes; the
closing quote is consumed when present. -/
def readString (f : Nat) (q : Char) (s : LexSt) : Except LexErr (Token × LexSt) :=
  let startLine := s.line
  let startCol := s.column
  match readStringGo f q s.advance "" with
  | .error e => .error e
  | .ok (txt, s1) =>
    let s2 := if s1.cur = some q then s1.advance else s1
    .ok ({ type := .STRING, value := .str txt, line := startLine, column := startCol }, s2)

/-- `is_alpha` in the source: alphabetic or underscore. -/
def isAlphaU (c : Char) : Bool := c.isAlpha || c = '_'

/-- `is_alnum` in the source: alphanumeric or underscore. -/
def isAlnumU (c : Char) : Bool := c.isAlphanum || c = '_'

/-- `BaseLexer.read_identifier` accumulation loop. -/
def readIdentGo : Nat → LexSt → String → (String × LexSt)
  | 0, s, acc => (acc, s)
  | f + 1, s, acc =>
    match s.cur with
    | some c => if isAlnumU c then readIdentGo f s.advance (acc.push c) else (acc, s)
    | none => (acc, s)

/-- `BaseLexer.read_identifier`: keyword-set lookup decides
`KEYWORD` vs `IDENTIFIER`. -/
def readIdentifier (f : Nat) (keywords : List String) (s : LexSt) : Token × LexSt :=
  let startLine := s.line
  let startCol := s.column
  let r := readIdentGo f s ""
  let t := if r.1 ∈ keywords then TokenType.KEYWORD else TokenType.IDENTIFIER
  ({ type := t, value := .str r.1, line := startLine, column := startCol }, r.2)

/-- Indent-width scan of `PythonLexer.handle_indentation`: spaces count
1, tabs count 4. -/
def countIndentGo : Nat → LexSt → Nat → (Nat × LexSt)
  | 0, s, lvl => (lvl, s)
  | f + 1, s, lvl =>
    match s.cur with
    | some c =>
      if c = ' ' then countIndentGo f s.advance (lvl + 1)
      else if c = '\t' then countIndentGo f s.advance (lvl + 4)
      else (lvl, s)
    | none => (lvl, s)

/-- DEDENT-emitting pop loop of `handle_indentation`:
`while self.indent_stack and self.indent_stack[-1] > indent_level`. -/
def dedentPops (stack : List Nat) (lvl : Nat) (line : Int) : List Token × List Nat :=
  match stack with
  | [] => ([], [])
  | top :: rest =>
    if lvl < top then
      let r := dedentPops rest lvl line
      ({ type := .DEDENT, value := .int lvl, line := line, column := 1 } :: r.1, r.2)
    else ([], top :: rest)

/-- `PythonLexer.handle_indentation`.  Reading `self.indent_stack[-1]`
on an empty stack would raise `IndexError`; the bottom element 0 makes
that unreachable, which the theorems below prove rather than assume. -/
def handleIndentation (f : Nat) (s : LexSt) : Except LexErr (List Token × LexSt) :=
  let r := countIndentGo f s 0
  let lvl := r.1
  let s1 := r.2
  match s1.indentStack with
  | [] => .error (.indexErr "list index out of range")
  | top :: rest =>
    if top < lvl then
      .ok ([{ type := .INDENT, value := .int lvl, line := s1.line, column := 1 }],
           { s1 with indentStack := lvl :: top :: rest })
    else if lvl < top then
      let p := dedentPops (top :: rest) lvl s1.line
      .ok (p.1, { s1 with indentStack := p.2 })
    else
      .ok ([], s1)

/-- End-of-input DEDENT flush:
`while len(self.indent_stack) > 1: pop; append DEDENT`. -/
def flushDedents (stack : List Nat) (line : Int) (column : Int) : List Token :=
  match stack with
  | [] => []
  | [_] => []
  | _ :: rest =>
    { type := .DEDENT, value := .int 0, line := line, column := column } ::
      flushDedents rest line column

/-- The `single_char_tokens` dictionary of the Variant-P lexer. -/
def pySingleCharTokens : List (Char × TokenType) :=
  [('+', .PLUS), ('-', .MINUS), ('*', .MULTIPLY), ('/', .DIVIDE),
   ('%', .MODULO), ('=', .ASSIGN), ('<', .LESS_THAN), ('>', .GREATER_THAN),
   ('(', .LPAREN), (')', .RPAREN), (lbrace, .LBRACE), (rbrace, .RBRACE),
   ('[', .LBRACKET), (']', .RBRACKET), (',', .COMMA), (';', .SEMICOLON),
   (':', .COLON), ('.', .DOT)]

/-- Dictionary lookup `single_char_tokens[current_char]`. -/
def pySingleCharToken (c : Char) : Option TokenType :=
  (pySingleCharTokens.find? (fun p => p.1 == c)).map (fun p => p.2)

/-- Inner brace-depth scan of the f-string branch: accumulates the
embedded expression source, stopping (without consuming) at the brace
that sends the depth to zero. -/
def fstringExpr : Nat → LexSt → String → Nat → (String × LexSt)
  | 0, s, acc, _ => (acc, s)
  | f + 1, s, acc, depth =>
    match s.cur with
    | none => (acc, s)
    | some c =>
      if c = lbrace then fstringExpr f s.advance (acc.push c) (depth + 1)
      else if c = rbrace then
        if depth = 1 then (acc, s)
        else fstringExpr f s.advance (acc.push c) (depth - 1)
      else fstringExpr f s.advance (acc.push c) depth

/-- Body scan of the f-string branch of `PythonLexer.tokenize`:
decomposes the payload into alternating literal/expression parts. -/
def fstringBody : Nat → Char → LexSt → String → List FPart → (List FPart × LexSt)
  | 0, _, s, part, parts => (parts ++ if part ≠ "" then [.stringPart part] else [], s)
  | f + 1, q, s, part, parts =>
    match s.cur with
    | none => (parts ++ (if part ≠ "" then [.stringPart part] else []), s)
    | some c =>
      if c = q then (parts ++ (if part ≠ "" then [.stringPart part] else []), s)
      else if c = '\\' then
        let s1 := s.advance
        match s1.cur with
        | some e => fstringBody f q s1.advance (part.push e) parts
        | none => fstringBody f q s1 part parts
      else if c = lbrace then
        if s.peek 1 = some lbrace then
          fstringBody f q s.advance.advance (part.push lbrace) parts
        else
          let parts1 := parts ++ (if part ≠ "" then [.stringPart part] else [])
          let r := fstringExpr f s.advance "" 1
          let parts2 := parts1 ++ (if r.1 ≠ "" then [.exprPart r.1] else [])
          fstringBody f q r.2.advance "" parts2
      else if c = rbrace then
        if s.peek 1 = some rbrace then
          fstringBody f q s.advance.advance (part.push rbrace) parts
        else fstringBody f q s.advance (part.push c) parts
      else fstringBody f q s.advance (part.push c) parts

/-- Triple-quoted string scan of `PythonLexer.tokenize`. -/
def tripleGo : Nat → Char → LexSt → String → (String × LexSt)
  | 0, _, s, acc => (acc, s)
  | f + 1, q, s, acc =>
    match s.cur with
    | none => (acc, s)
    | some c =>
      if c = q ∧ s.peek 1 = some q ∧ s.peek 2 = some q then (acc, s.advance.advance.advance)
      else tripleGo f q s.advance (acc.push c)

/-- Fuel budget that always covers a scan over the rest of the input. -/
def bud (s : LexSt) : Nat := s.source.length + 1

/-- The two-character operator tests of the Variant-P lexer, in source
order: each entry is `((first char, second char), token type, text)`;
the conditions are pairwise distinct, so the ordered table lookup is the
source’s if-chain. -/
def pyTwoCharOps : List ((Char × Char) × TokenType × String) :=
  [(('=', '='), .EQUAL, "=="), (('!', '='), .NOT_EQUAL, "!="),
   (('<', '='), .LESS_EQUAL, "<="), (('>', '='), .GREATER_EQUAL, ">="),
   (('*', '*'), .POWER, "**"), (('/', '/'), .FLOOR_DIVIDE, "//"),
   (('+', '='), .PLUS_ASSIGN, "+="), (('-', '='), .MINUS_ASSIGN, "-="),
   (('-', '>'), .ARROW, "->")]

/-- String-token step of the Variant-P loop: triple quotes or
`read_string`. -/
def pyStringTok (s : LexSt) (acc : List Token) (c : Char) :
    Except LexErr (Bool × LexSt × List Token) :=
  if s.peek 1 = some c ∧ s.peek 2 = some c then
    let r := tripleGo (bud s) c s.advance.advance.advance ""
    .ok (false, r.2,
         acc ++ [{ type := .STRING, value := .str r.1,
                   line := r.2.line, column := r.2.column }])
  else
    match readString (bud s) c s with
    | .error e => .error e
    | .ok (tok, s1) => .ok (false, s1, acc ++ [tok])

/-- Operator step of the Variant-P loop: the two-character operators in
source order, then the single-character table, then the permissive
skip of an unknown character. -/
def pyOpTok (s : LexSt) (acc : List Token) (c : Char) :
    Bool × LexSt × List Token :=
  match pyTwoCharOps.find? (fun e => e.1.1 == c && s.peek 1 == some e.1.2) with
  | some e => (false, s.advance.advance, acc ++ [makeToken s e.2.1 (.str e.2.2)])
  | none =>
    match pySingleCharToken c with
    | some t => (false, s.advance, acc ++ [makeToken s t (.str (String.mk [c]))])
    | none => (false, s.advance, acc)

/-- Continuation of a Variant-P loop iteration after the f-string check:
strings, identifiers/keywords, then operators. -/
def pyStepRest (s : LexSt) (acc : List Token) (c : Char) :
    Except LexErr (Bool × LexSt × List Token) :=
  if c = '"' ∨ c = squote then pyStringTok s acc c
  else if isAlphaU c then
    let r := readIdentifier (bud s) PYTHON_KEYWORDS s
    .ok (false, r.2, acc ++ [r.1])
  else .ok (pyOpTok s acc c)

/-- One Variant-P loop iteration from the whitespace check (line 83 of
`python_lexer.py`) to the end of the body.  Every branch of that region
re-enters the loop, so the step returns the next
`(at_line_start, state, tokens)` triple, or the uncaught exception. -/
def pyStep (als : Bool) (s : LexSt) (acc : List Token) (c : Char) :
    Except LexErr (Bool × LexSt × List Token) :=
  -- skip inline whitespace
  if c = ' ' ∨ c = '\t' then .ok (als, skipWSInline (bud s) s, acc)
  -- newline token
  else if c = '\n' then
    .ok (true, s.advance, acc ++ [makeToken s .NEWLINE (.str "\n")])
  -- from here on the source has set `at_line_start = False`
  else if c = '#' then .ok (false, skipLine (bud s) s, acc)
  -- numbers
  else if c.isDigit then
    let r := readNumber (bud s) s
    .ok (false, r.2, acc ++ [r.1])
  else
    -- f-strings
    match s.peek 1 with
    | some q =>
      if (c = 'f' ∨ c = 'F') ∧ (q = '"' ∨ q = squote) then
        let body := fstringBody (bud s) q s.advance.advance "" []
        let sEnd := body.2.advance
        .ok (false, sEnd,
             acc ++ [{ type := .F_STRING, value := .fstr body.1,
                       line := sEnd.line, column := sEnd.column }])
      else pyStepRest s acc c
    | none => pyStepRest s acc c

/-- Main loop of `PythonLexer.tokenize`.  The `at_line_start` handling
mirrors lines 68-80 of the source, including the uncaught `TypeError`
which `self.current_char in ' \t'` raises when the indentation scan of a
whitespace-only final line runs to the end of the input. -/
def pyLoop : Nat → Bool → LexSt → List Token → Except LexErr (List Token)
  | 0, _, _, _ => .error .fuel
  | f + 1, als, s, acc =>
    match s.cur with
    | none =>
      .ok (acc ++ flushDedents s.indentStack s.line s.column ++
           [{ type := .EOF, value := .none, line := s.line, column := s.column }])
    | some c =>
      if als ∧ c ≠ '\n' ∧ c ≠ '#' then
        match handleIndentation (bud s) s with
        | .error e => .error e
        | .ok (itoks, s1) =>
          match s1.cur with
          | none => .error (.typeErr noneInStrMsg)
          | some c1 =>
            if c1 = ' ' ∨ c1 = '\t' then pyLoop f false s1 (acc ++ itoks)
            else
              match pyStep false s1 (acc ++ itoks) c1 with
              | .error e => .error e
              | .ok (als2, s2, acc2) => pyLoop f als2 s2 acc2
      else
        match pyStep als s acc c with
        | .error e => .error e
        | .ok (als2, s2, acc2) => pyLoop f als2 s2 acc2

/-- `PythonLexer.tokenize`: fresh lexer state (`line = 1`, `column = 1`,
`indent_stack = [0]`), then the main loop.  The fuel exceeds the number
of loop iterations any input can cause (every iteration consumes at
least one character). -/
def pythonTokenize (src : String) : Except LexErr (List Token) :=
  pyLoop (2 * src.length + 4) true
    { source := src.toList, pos := 0, line := 1, column := 1, indentStack := [0] } []

/-! ## AST (`parser/ast_nodes.py`)

Every Python AST node carries `line`/`column` (default 0) for
diagnostics; the embedding keeps them on exactly the constructors whose
coordinates some modelled function reads (symbol creation in the
semantic analyzer).  `ast_nodes.py` defines no `Break` node (the enum
has no BREAK member), so the tagged union below has none either. -/

/-- Literal payload of `Literal.value` (`Any` in the source).  Float
literals are carried as their literal text. -/
inductive PyLit where
  | int (n : Int)
  | float (lit : String)
  | str (s : String)
  | bool (b : Bool)
  | null
  deriving Repr, DecidableEq

/-- The AST tagged union of `ast_nodes.py`. -/
inductive ASTNode where
  | program (statements : List ASTNode)
  | functionDef (name : String) (parameters : List (String × Option String))
      (returnType : Option String) (body : List ASTNode) (line column : Int)
  | classDef (name : String) (methods : List ASTNode) (fields : List ASTNode)
      (baseClasses : List String) (line column : Int)
  | variableDecl (name : String) (varType : Option String)
      (initialValue : Option ASTNode) (line column : Int)
  | ifStatement (condition : ASTNode) (thenBlock : List ASTNode)
      (elifBlocks : List (ASTNode × List ASTNode)) (elseBlock : List ASTNode)
  | whileLoop (condition : ASTNode) (body : List ASTNode)
  | forLoop (loopVar : String) (iterable : ASTNode) (body : List ASTNode)
      (line column : Int)
  | ret (expression : Option ASTNode)
  | assignment (target : String) (value : ASTNode) (operator : String)
      (line column : Int)
  | binaryOp (left : ASTNode) (operator : String) (right : ASTNode)
  | unaryOp (operator : String) (operand : ASTNode)
  | functionCall (functionName : String) (arguments : List ASTNode)
  | identifier (name : String)
  | literal (value : PyLit) (literalType : String)
  | block (statements : List ASTNode)
  | expressionStatement (expression : ASTNode)
  deriving Repr

/-! ## Symbol table (`semantic/symbol_table.py`) -/

/-- `SymbolKind` enumeration (`var` stands for the VARIABLE member;
`variable` is reserved in Lean). -/
inductive SymbolKind : Type where
  | var | function | cls | parameter
  deriving Repr, DecidableEq

/-- `Symbol`, with every attribute `__init__` sets.  It is an inductive
type because class symbols hold maps `name → Symbol` for methods and
fields. -/
inductive Symbol : Type where
  | mk (name : String) (kind : SymbolKind) (symbolType : Option String)
       (value : Option ASTNode) (line : Int) (column : Int)
       (isInitialized : Bool)
       (parameters : List (String × Option String)) (returnType : Option String)
       (methods : List (String × Symbol)) (fields : List (String × Symbol))
       (baseClasses : List String)

/-- Symbol name. -/
def Symbol.name : Symbol → String
  | .mk n _ _ _ _ _ _ _ _ _ _ _ => n

/-- Symbol kind. -/
def Symbol.kind : Symbol → SymbolKind
  | .mk _ k _ _ _ _ _ _ _ _ _ _ => k

/-- Symbol type (`symbol_type`). -/
def Symbol.symbolType : Symbol → Option String
  | .mk _ _ t _ _ _ _ _ _ _ _ _ => t

/-- Function parameters. -/
def Symbol.parameters : Symbol → List (String × Option String)
  | .mk _ _ _ _ _ _ _ p _ _ _ _ => p

/-- Function return type. -/
def Symbol.returnType : Symbol → Option String
  | .mk _ _ _ _ _ _ _ _ r _ _ _ => r

/-- `Symbol.__init__`: the remaining attributes start as
`is_initialized = (value is not None)`, empty parameter list, `None`
return type, empty method/field maps and base-class list. -/
def Symbol.make (name : String) (kind : SymbolKind) (symbolType : Option String)
    (value : Option ASTNode) (line : Int) (column : Int) : Symbol :=
  .mk name kind symbolType value line column value.isSome [] none [] [] []

/-- `func_symbol.parameters = ...; func_symbol.return_type = ...` in
`visit_functiondef`. -/
def Symbol.withFuncSig : Symbol → List (String × Option String) → Option String → Symbol
  | .mk n k t v l c i _ _ m fs b, ps, rt => .mk n k t v l c i ps rt m fs b

/-- `class_symbol.base_classes = node.base_classes` in `visit_classdef`. -/
def Symbol.withBases : Symbol → List String → Symbol
  | .mk n k t v l c i ps rt m fs _, b => .mk n k t v l c i ps rt m fs b

/-- Dictionary update `d[k] = v` on an association list. -/
def assocSet {α : Type} : List (String × α) → String → α → List (String × α)
  | [], k, v => [(k, v)]
  | (k0, v0) :: rest, k, v =>
    if k0 = k then (k, v) :: rest else (k0, v0) :: assocSet rest k v

/-- `class_symbol.fields[name] = sym`. -/
def Symbol.addField : Symbol → String → Symbol → Symbol
  | .mk n k t v l c i ps rt m fs b, key, sym => .mk n k t v l c i ps rt m (assocSet fs key sym) b

/-- `class_symbol.methods[name] = sym`. -/
def Symbol.addMethod : Symbol → String → Symbol → Symbol
  | .mk n k t v l c i ps rt m fs b, key, sym => .mk n k t v l c i ps rt (assocSet m key sym) fs b

/-- One lexical `Scope`: name plus its symbol dictionary.  The parent
back-reference of the source becomes the tail of the scope chain held by
the table. -/
structure TCScope where
  name : String
  symbols : List (String × Symbol)

/-- `Scope.lookup` restricted to one scope. -/
def scopeGet (sc : TCScope) (name : String) : Option Symbol :=
  (sc.symbols.find? (fun p => p.1 = name)).map (·.2)

/-- `SymbolTable.lookup` (chain walk, innermost scope first). -/
def stLookup : List TCScope → String → Option Symbol
  | [], _ => none
  | sc :: rest, name =>
    match scopeGet sc name with
    | some sym => some sym
    | none => stLookup rest name

/-- `SymbolTable.lookup(name, current_only=True)`. -/
def stLookupCur (chain : List TCScope) (name : String) : Option Symbol :=
  match chain with
  | [] => none
  | sc :: _ => scopeGet sc name

/-- `SymbolTable.define`: into the current (innermost) scope.  The chain
is never empty: the table is created with its global scope. -/
def stDefine (chain : List TCScope) (sym : Symbol) : List TCScope :=
  match chain with
  | [] => []
  | sc :: rest => { sc with symbols := assocSet sc.symbols sym.name sym } :: rest

/-- `SymbolTable.enter_scope`. -/
def enterScope (name : String) (chain : List TCScope) : List TCScope :=
  { name := name, symbols := [] } :: chain

/-- `SymbolTable.exit_scope`: moves to the parent when one exists. -/
def exitScope (chain : List TCScope) : List TCScope :=
  match chain with
  | _ :: p :: rest => p :: rest
  | x => x

/-! ## Type checker (`semantic/type_checker.py`) -/

/-- Mutable fields of a `TypeChecker` instance.  `__init__` lowers the
language name and roots the table at one global scope. -/
structure TCState where
  language : String
  chain : List TCScope
  errors : List String
  warnings : List String
  currentFunction : Option Symbol
  currentClass : Option Symbol

/-- `TypeChecker.error`. -/
def addErr (s : TCState) (msg : String) : TCState :=
  { s with errors := s.errors ++ [msg] }

/-- `TypeChecker.warning`. -/
def addWarn (s : TCState) (msg : String) : TCState :=
  { s with warnings := s.warnings ++ [msg] }

/-- `TypeChecker.is_type_compatible`. -/
def isTypeCompatible (expected actual : String) : Bool :=
  if expected = actual then true
  else if expected ∈ ["int", "float", "double", "long", "short"] ∧
          actual ∈ ["int", "float", "double", "long", "short"] then true
  else if expected ∈ ["bool", "boolean"] ∧ actual ∈ ["bool", "boolean"] then true
  else false

/-- `visit_literal` normalization table (`type_map.get(t, t)`). -/
def literalTypeNorm (t : String) : String :=
  if t = "int" then "int" else if t = "float" then "float"
  else if t = "string" then "str" else if t = "str" then "str"
  else if t = "bool" then "bool" else if t = "boolean" then "bool"
  else if t = "null" then "None" else t

/-- Spelling of an optional type in a Python f-string (`None` prints as
`"None"`). -/
def optTypeStr : Option String → String
  | some t => t
  | none => "None"

/-- Parameter-definition loop of `visit_functiondef`. -/
def defineParams (chain : List TCScope) : List (String × Option String) → List TCScope
  | [] => chain
  | (pname, ptype) :: rest =>
    defineParams (stDefine chain (Symbol.make pname .parameter ptype none 0 0)) rest

mutual

/-- `TypeChecker.visit`: string-keyed dispatch to the `visit_<kind>`
methods, embedded as one total match (every `ASTNodeType` member has a
visitor, so `generic_visit` is unreachable from the dispatch). -/
def tcVisit (s : TCState) (node : ASTNode) : Option String × TCState :=
  match node with
  | .program stmts => (none, tcVisitSeq s stmts)
  | .functionDef name params rt body line col =>
    -- visit_functiondef
    if (stLookupCur s.chain name).isSome then
      (none, addErr s ("Function \x27" ++ name ++ "\x27 is already defined"))
    else
      let funcSym := (Symbol.make name .function (some "function") none line col).withFuncSig params rt
      let s1 := { s with chain := enterScope ("function:" ++ name) (stDefine s.chain funcSym),
                         currentFunction := some funcSym }
      let s2 := { s1 with chain := defineParams s1.chain params }
      let s3 := tcVisitSeq s2 body
      (none, { s3 with chain := exitScope s3.chain, currentFunction := none })
  | .classDef name methods fields bases line col =>
    -- visit_classdef
    if (stLookupCur s.chain name).isSome then
      (none, addErr s ("Class \x27" ++ name ++ "\x27 is already defined"))
    else
      let clsSym := (Symbol.make name .cls (some "class") none line col).withBases bases
      let s1 := { s with chain := enterScope ("class:" ++ name) (stDefine s.chain clsSym),
                         currentClass := some clsSym }
      let r1 := tcVisitClassFields s1 clsSym fields
      let r2 := tcVisitClassMethods r1.2 r1.1 methods
      -- the class symbol stored before entering the scope is the same
      -- Python object that the two loops mutate; re-storing the final
      -- symbol after exiting the scope reproduces the table they leave
      let s4 := r2.2
      (none, { s4 with chain := stDefine (exitScope s4.chain) r2.1, currentClass := none })
  | .variableDecl name varType init line col =>
    -- visit_variabledecl
    if (stLookupCur s.chain name).isSome then
      (none, addErr s ("Variable \x27" ++ name ++ "\x27 is already defined in this scope"))
    else
      let r : Option String × TCState :=
        match varType, init with
        | none, some iv => tcVisit s iv
        | _, _ => (varType, s)
      let sym := Symbol.make name .var r.1 init line col
      (none, { r.2 with chain := stDefine r.2.chain sym })
  | .assignment target value _op line col =>
    -- visit_assignment
    match stLookup s.chain target with
    | none =>
      if s.language = "python" then
        let r := tcVisit s value
        let sym := Symbol.make target .var r.1 none line col
        (none, { r.2 with chain := stDefine r.2.chain sym })
      else
        (none, addErr s ("Variable \x27" ++ target ++ "\x27 is not defined"))
    | some sym =>
      let r := tcVisit s value
      match sym.symbolType, r.1 with
      | some st, some vt =>
        if ¬ isTypeCompatible st vt then
          (none, addErr r.2 ("Type mismatch: cannot assign " ++ vt ++ " to " ++ st))
        else (none, r.2)
      | _, _ => (none, r.2)
  | .ifStatement cond thenB elifs elseB =>
    -- visit_ifstatement
    let r := tcVisit s cond
    let s1 :=
      match r.1 with
      | some t =>
        if t ∉ ["bool", "boolean", "int"] then
          addWarn r.2 ("Condition has type " ++ t ++ ", expected boolean")
        else r.2
      | none => r.2
    let s2 := tcVisitSeq s1 thenB
    let s3 := tcVisitElifs s2 elifs
    (none, tcVisitSeq s3 elseB)
  | .whileLoop cond body =>
    -- visit_whileloop
    let r := tcVisit s cond
    let s1 :=
      match r.1 with
      | some t =>
        if t ∉ ["bool", "boolean", "int"] then
          addWarn r.2 ("Condition has type " ++ t ++ ", expected boolean")
        else r.2
      | none => r.2
    (none, tcVisitSeq s1 body)
  | .forLoop v iter body line col =>
    -- visit_forloop
    let r := tcVisit s iter
    let s1 :=
      if v ≠ "" then
        { r.2 with chain := stDefine r.2.chain (Symbol.make v .var none none line col) }
      else r.2
    (none, tcVisitSeq s1 body)
  | .ret expr =>
    -- visit_return
    match s.currentFunction with
    | none => (none, addErr s "Return statement outside of function")
    | some f =>
      match expr with
      | some e =>
        let r := tcVisit s e
        match f.returnType, r.1 with
        | some ex, some rt =>
          if ¬ isTypeCompatible ex rt then
            (none, addErr r.2 ("Return type mismatch: expected " ++ ex ++ ", got " ++ rt))
          else (none, r.2)
        | _, _ => (none, r.2)
      | none => (none, s)
  | .binaryOp l op r =>
    -- visit_binaryop
    let rl := tcVisit s l
    let rr := tcVisit rl.2 r
    match rl.1, rr.1 with
    | some lt, some rt =>
      if op ∈ ["+", "-", "*", "/", "%", "//", "**"] then
        if lt ∈ ["int", "float", "double"] ∧ rt ∈ ["int", "float", "double"] then
          if lt = "float" ∨ rt = "float" ∨ lt = "double" ∨ rt = "double" then
            (some "float", rr.2)
          else (some "int", rr.2)
        else if op = "+" ∧ lt = "str" ∧ rt = "str" then (some "str", rr.2)
        else (none, addErr rr.2 ("Invalid operands for " ++ op ++ ": " ++ lt ++ " and " ++ rt))
      else if op ∈ ["==", "!=", "<", ">", "<=", ">="] then
        (some (if s.language = "python" then "bool" else "boolean"), rr.2)
      else if op ∈ ["and", "or", "&&", "||"] then
        (some (if s.language = "python" then "bool" else "boolean"), rr.2)
      else (none, rr.2)
    | _, _ => (none, rr.2)
  | .unaryOp op operand =>
    -- visit_unaryop
    let r := tcVisit s operand
    if op = "-" ∨ op = "+" then
      match r.1 with
      | some t =>
        if t ∈ ["int", "float", "double"] then (some t, r.2)
        else (none, addErr r.2 ("Invalid operand for " ++ op ++ ": " ++ t))
      | none => (none, addErr r.2 ("Invalid operand for " ++ op ++ ": None"))
    else if op = "not" ∨ op = "!" then
      (some (if s.language = "python" then "bool" else "boolean"), r.2)
    else (none, r.2)
  | .functionCall name args =>
    -- visit_functioncall
    match stLookup s.chain name with
    | none =>
      if name ∈ ["print", "println", "cout", "len", "range", "list"] then
        (none, tcVisitSeq s args)
      else
        (none, addErr s ("Function \x27" ++ name ++ "\x27 is not defined"))
    | some sym =>
      if sym.kind ≠ .function then
        (none, addErr s ("\x27" ++ name ++ "\x27 is not a function"))
      else
        let s1 :=
          if args.length ≠ sym.parameters.length then
            addErr s ("Function \x27" ++ name ++ "\x27 expects " ++
                      toString sym.parameters.length ++ " arguments, got " ++
                      toString args.length)
          else s
        (sym.returnType, tcVisitSeq s1 args)
  | .identifier name =>
    -- visit_identifier
    match stLookup s.chain name with
    | none => (none, addErr s ("Variable \x27" ++ name ++ "\x27 is not defined"))
    | some sym => (sym.symbolType, s)
  | .literal _v lt =>
    -- visit_literal
    (some (literalTypeNorm lt), s)
  | .block stmts => (none, tcVisitSeq s stmts)
  | .expressionStatement e => (none, (tcVisit s e).2)

/-- Statement loop `for stmt in ...: self.visit(stmt)`. -/
def tcVisitSeq (s : TCState) : List ASTNode → TCState
  | [] => s
  | n :: rest => tcVisitSeq (tcVisit s n).2 rest

/-- Elif loop of `visit_ifstatement`. -/
def tcVisitElifs (s : TCState) : List (ASTNode × List ASTNode) → TCState
  | [] => s
  | (cond, body) :: rest =>
    let r := tcVisit s cond
    tcVisitElifs (tcVisitSeq r.2 body) rest

/-- Field loop of `visit_classdef`: visit each field, and record
`VariableDecl` fields in the class symbol. -/
def tcVisitClassFields (s : TCState) (cls : Symbol) : List ASTNode → Symbol × TCState
  | [] => (cls, s)
  | f :: rest =>
    let s1 := (tcVisit s f).2
    let cls1 :=
      match f with
      | .variableDecl fname ftype _ _ _ =>
        cls.addField fname (Symbol.make fname .var ftype none 0 0)
      | _ => cls
    tcVisitClassFields s1 cls1 rest

/-- Method loop of `visit_classdef`: visit each method, and record
`FunctionDef` methods in the class symbol. -/
def tcVisitClassMethods (s : TCState) (cls : Symbol) : List ASTNode → Symbol × TCState
  | [] => (cls, s)
  | m :: rest =>
    let s1 := (tcVisit s m).2
    let cls1 :=
      match m with
      | .functionDef mname _ _ _ _ _ =>
        cls.addMethod mname (Symbol.make mname .function (some "function") none 0 0)
      | _ => cls
    tcVisitClassMethods s1 cls1 rest

end

/-- `TypeChecker.__init__` state for a given source language. -/
def tcInit (language : String) : TCState :=
  { language := strLower language,
    chain := [{ name := "global", symbols := [] }],
    errors := [], warnings := [],
    currentFunction := none, currentClass := none }

/-- The top-level program walk of `TypeChecker.check`, in the exception
type that its `try`/`except SemanticError` block handles.  No method of
`TypeChecker` or `SymbolTable` contains a `raise` statement, so the walk
always returns normally; this total run is the exact behaviour of
`self.visit_program(ast)` over the Program statements. -/
def visitProgramRun (s : TCState) (stmts : List ASTNode) :
    Except (String × TCState) (Unit × TCState) :=
  .ok ((), tcVisitSeq s stmts)

/-- The `except SemanticError` clause of `TypeChecker.check`: a normal
outcome keeps the walk state; an exceptional outcome appends `str(e)`
to the error list accumulated at the moment the exception left the
walk. -/
def checkHandleOutcome (outcome : Except (String × TCState) (Unit × TCState)) : TCState :=
  match outcome with
  | .ok (_, s1) => s1
  | .error (e, s1) => { s1 with errors := s1.errors ++ [e] }

/-- `TypeChecker.check` over the Program statements: reset the error and
warning lists, run the guarded walk, and report `len(errors) == 0`. -/
def tcCheck (s : TCState) (stmts : List ASTNode) : Bool × TCState :=
  let s0 := { s with errors := [], warnings := [] }
  let s1 := checkHandleOutcome (visitProgramRun s0 stmts)
  (s1.errors.length = 0, s1)

/-! ## IR (`ir/ir_nodes.py`)

`ir_nodes.py` defines no `IRBreak` class and `IRNodeType` has no BREAK
member, so the union below has none.  Every node's `metadata` dictionary
only ever receives `source_line`/`source_column` in the IR generator and
is read by no pipeline stage; the embedding omits it. -/

/-- `IRType` enumeration. -/
inductive IRType where
  | INT | FLOAT | STRING | BOOL | VOID | ARRAY | OBJECT | ANY
  deriving Repr, DecidableEq

/-- The IR tagged union of `ir_nodes.py` (everything except `IRProgram`,
which is the separate record below).  Child slots filled from a
`visit` result are `Option`s, since `visit` can return `None`. -/
inductive IRNode : Type where
  | func (name : String) (parameters : List (String × IRType)) (returnType : IRType)
      (body : List IRNode) (isMethod : Bool) (accessModifier : Option String)
  | cls (name : String) (methods : List IRNode) (fields : List IRNode)
      (baseClasses : List String)
  | varDecl (name : String) (varType : IRType) (initialValue : Option IRNode)
      (isConst : Bool)
  | assign (target : String) (value : Option IRNode) (operator : String)
  | ifS (condition : Option IRNode) (thenBlock : List IRNode)
      (elifBlocks : List (Option IRNode × List IRNode)) (elseBlock : List IRNode)
  | whileS (condition : Option IRNode) (body : List IRNode)
  | forS (loopVar : String) (iterable : Option IRNode) (body : List IRNode)
  | retS (value : Option IRNode)
  | call (functionName : String) (arguments : List IRNode) (returnType : IRType)
  | binOp (left : Option IRNode) (operator : String) (right : Option IRNode)
      (resultType : IRType)
  | unOp (operator : String) (operand : Option IRNode) (resultType : Option IRType)
  | lit (value : PyLit) (literalType : IRType)
  | ident (name : String) (idType : IRType)
  | blockS (statements : List IRNode)
  deriving Repr

/-- `IRNode.ir_type` as each subclass `__init__` stores it. -/
def IRNode.irType : IRNode → Option IRType
  | .func .. => none
  | .cls .. => none
  | .varDecl _ t _ _ => some t
  | .assign .. => none
  | .ifS .. => none
  | .whileS .. => none
  | .forS .. => none
  | .retS _ => none
  | .call _ _ t => some t
  | .binOp _ _ _ t => some t
  | .unOp _ _ t => t
  | .lit _ t => some t
  | .ident _ t => some t
  | .blockS _ => none

/-- `IRProgram`.  Its `__init__` creates only the `functions`, `classes`
and `globals` lists; `main_body` is *not* a declared attribute.  The
`mainBody` field models the optional dynamic attribute of the Python
instance (`none` = attribute absent), which `IRGenerator.generate`
appends to and `JavaGenerator.generate` reads. -/
structure IRProgram where
  functions : List IRNode
  classes : List IRNode
  globals : List IRNode
  mainBody : Option (List IRNode)

/-- `IRProgram()` as constructed by `__init__`. -/
def IRProgram.init : IRProgram :=
  { functions := [], classes := [], globals := [], mainBody := none }

/-! ## IR generator (`ir/ir_generator.py`) -/

/-- Python truthiness of an optional string (`if node.return_type` is
false for `None` and for the empty string). -/
def optStrTruthy : Option String → Bool
  | some s => s ≠ ""
  | none => false

/-- Family dispatch of `IRGenerator.map_type` on the lowered type
string. -/
def mapTypeFamilies (t : String) : IRType :=
  if t ∈ ["int", "integer", "long", "short", "byte"] then .INT
  else if t ∈ ["float", "double"] then .FLOAT
  else if t ∈ ["str", "string"] then .STRING
  else if t ∈ ["bool", "boolean"] then .BOOL
  else if t ∈ ["void", "none"] then .VOID
  else if strHasSub t "list" || strHasSub t "array" || strHasSub t "[]" then .ARRAY
  else .OBJECT

/-- `IRGenerator.map_type`: `None`/empty annotations map to ANY, every
other string is lowered and dispatched case-insensitively. -/
def mapType (typeStr : Option String) : IRType :=
  if ¬ optStrTruthy typeStr then .ANY
  else
    match typeStr with
    | none => .ANY
    | some t0 => mapTypeFamilies (strLower t0)

/-- `IRGenerator.map_literal_type`. -/
def mapLiteralType (t : String) : IRType :=
  if t = "int" then .INT
  else if t = "float" then .FLOAT
  else if t = "string" then .STRING
  else if t = "str" then .STRING
  else if t = "bool" then .BOOL
  else if t = "boolean" then .BOOL
  else if t = "null" then .VOID
  else if t = "None" then .VOID
  else .ANY

/-- `IRGenerator.infer_binary_op_type`. -/
def inferBinaryOpType (op : String) (left right : Option IRNode) : IRType :=
  if op ∈ ["==", "!=", "<", ">", "<=", ">=", "and", "or", "&&", "||"] then .BOOL
  else if op ∈ ["+", "-", "*", "/", "%", "//", "**"] then
    if (match left with | some l => l.irType == some IRType.FLOAT | none => false) then .FLOAT
    else if (match right with | some r => r.irType == some IRType.FLOAT | none => false) then .FLOAT
    else .INT
  else .ANY

/-- Mutable fields of an `IRGenerator` instance: the lowered source
language and the stack of defined-name sets (innermost scope first; the
sets are association-free name lists with set-style insertion). -/
structure IRGenState where
  sourceLanguage : String
  scopes : List (List String)

/-- `IRGenerator.enter_scope`. -/
def irEnterScope (st : IRGenState) : IRGenState :=
  { st with scopes := [] :: st.scopes }

/-- `IRGenerator.exit_scope`. -/
def irExitScope (st : IRGenState) : IRGenState :=
  { st with scopes := st.scopes.tail }

/-- `IRGenerator.define_var`: add to the innermost scope set. -/
def irDefineVar (st : IRGenState) (name : String) : IRGenState :=
  match st.scopes with
  | [] => st
  | top :: rest => { st with scopes := (if name ∈ top then top else name :: top) :: rest }

/-- `IRGenerator.is_defined`: membership in any scope. -/
def irIsDefined (st : IRGenState) (name : String) : Bool :=
  st.scopes.any (fun sc => name ∈ sc)

/-- Parameter loop of `visit_functiondef`: builds the IR parameter list
and defines each parameter name in the new scope. -/
def irParamsLoop (st : IRGenState) :
    List (String × Option String) → List (String × IRType) × IRGenState
  | [] => ([], st)
  | (n, t) :: rest =>
    let ty := if optStrTruthy t then mapType t else IRType.ANY
    let r := irParamsLoop (irDefineVar st n) rest
    ((n, ty) :: r.1, r.2)

/-- `is_method = True` mutation applied to collected class methods. -/
def IRNode.setIsMethod : IRNode → IRNode
  | .func n p rt b _ am => .func n p rt b true am
  | x => x

mutual

/-- `IRGenerator.visit`: string-keyed dispatch to `visit_<kind>`,
embedded as one total match.  `IRGenerator` has no `visit_program`, so a
nested Program node falls to `generic_visit` and yields `None`. -/
def irVisit (st : IRGenState) (node : ASTNode) : Option IRNode × IRGenState :=
  match node with
  | .program _ => (none, st)
  | .functionDef name params rt body _ _ =>
    -- visit_functiondef
    let returnType := if optStrTruthy rt then mapType rt else IRType.VOID
    let st1 := irEnterScope st
    let pr := irParamsLoop st1 params
    let br := irVisitSeq pr.2 body
    (some (.func name pr.1 returnType br.1 false none), irExitScope br.2)
  | .classDef name methods fields bases _ _ =>
    -- visit_classdef
    let mr := irVisitMethods st methods
    let fr := irVisitFields mr.2 fields
    (some (.cls name mr.1 fr.1 bases), fr.2)
  | .variableDecl name vt init _ _ =>
    -- visit_variabledecl
    let varType := if optStrTruthy vt then mapType vt else IRType.ANY
    let r : Option IRNode × IRGenState :=
      match init with
      | some iv => irVisit st iv
      | none => (none, st)
    (some (.varDecl name varType r.1 false), r.2)
  | .assignment target value op _ _ =>
    -- visit_assignment
    let r := irVisit st value
    if st.sourceLanguage = "python" ∧ ¬ irIsDefined r.2 target then
      (some (.varDecl target .ANY r.1 false), irDefineVar r.2 target)
    else
      (some (.assign target r.1 op), r.2)
  | .ifStatement cond thenB elifs elseB =>
    -- visit_ifstatement
    let c := irVisit st cond
    let t := irVisitSeq c.2 thenB
    let el := irVisitElifs t.2 elifs
    let e := irVisitSeq el.2 elseB
    (some (.ifS c.1 t.1 el.1 e.1), e.2)
  | .whileLoop cond body =>
    -- visit_whileloop
    let c := irVisit st cond
    let b := irVisitSeq c.2 body
    (some (.whileS c.1 b.1), b.2)
  | .forLoop v iter body _ _ =>
    -- visit_forloop
    let it := irVisit st iter
    let b := irVisitSeq it.2 body
    (some (.forS v it.1 b.1), b.2)
  | .ret e =>
    -- visit_return
    let r : Option IRNode × IRGenState :=
      match e with
      | some ex => irVisit st ex
      | none => (none, st)
    (some (.retS r.1), r.2)
  | .binaryOp l op r =>
    -- visit_binaryop
    let lv := irVisit st l
    let rv := irVisit lv.2 r
    (some (.binOp lv.1 op rv.1 (inferBinaryOpType op lv.1 rv.1)), rv.2)
  | .unaryOp op operand =>
    -- visit_unaryop
    let ov := irVisit st operand
    let rt : Option IRType :=
      match ov.1 with
      | some o => o.irType
      | none => some .ANY
    (some (.unOp op ov.1 rt), ov.2)
  | .functionCall name args =>
    -- visit_functioncall
    let ar := irVisitSeq st args
    (some (.call name ar.1 .ANY), ar.2)
  | .identifier n => (some (.ident n .ANY), st)
  | .literal v lt => (some (.lit v (mapLiteralType lt)), st)
  | .block stmts =>
    let r := irVisitSeq st stmts
    (some (.blockS r.1), r.2)
  | .expressionStatement e => irVisit st e

/-- Statement-list lowering: visit each node and keep the non-`None`
results (`[stmt for stmt in ... if stmt is not None]`). -/
def irVisitSeq (st : IRGenState) : List ASTNode → List IRNode × IRGenState
  | [] => ([], st)
  | n :: rest =>
    let r := irVisit st n
    let rs := irVisitSeq r.2 rest
    ((match r.1 with | some x => [x] | none => []) ++ rs.1, rs.2)

/-- Elif-list lowering of `visit_ifstatement`. -/
def irVisitElifs (st : IRGenState) :
    List (ASTNode × List ASTNode) → List (Option IRNode × List IRNode) × IRGenState
  | [] => ([], st)
  | (c, body) :: rest =>
    let cr := irVisit st c
    let br := irVisitSeq cr.2 body
    let rs := irVisitElifs br.2 rest
    ((cr.1, br.1) :: rs.1, rs.2)

/-- Method loop of `visit_classdef`: keep `IRFunction` results and mark
them as methods. -/
def irVisitMethods (st : IRGenState) : List ASTNode → List IRNode × IRGenState
  | [] => ([], st)
  | m :: rest =>
    let r := irVisit st m
    let rs := irVisitMethods r.2 rest
    ((match r.1 with
      | some (IRNode.func n p rt b im am) => [(IRNode.func n p rt b im am).setIsMethod]
      | _ => []) ++ rs.1, rs.2)

/-- Field loop of `visit_classdef`: keep `IRVariable` results. -/
def irVisitFields (st : IRGenState) : List ASTNode → List IRNode × IRGenState
  | [] => ([], st)
  | f :: rest =>
    let r := irVisit st f
    let rs := irVisitFields r.2 rest
    ((match r.1 with
      | some (IRNode.varDecl n t iv ic) => [IRNode.varDecl n t iv ic]
      | _ => []) ++ rs.1, rs.2)

end

/-- The `AttributeError` text raised by
`self.ir_program.main_body.append(...)`. -/
def attrErrMainBody : String :=
  "AttributeError: \x27IRProgram\x27 object has no attribute \x27main_body\x27"

/-- Top-level bucketing loop of `IRGenerator.generate`.  The fourth
bucket appends to `self.ir_program.main_body`, an attribute `IRProgram`
never creates: reaching it on an instance that does not carry the
dynamic attribute raises `AttributeError`. -/
def irGenerateGo (st : IRGenState) (prog : IRProgram) :
    List ASTNode → Except String IRProgram
  | [] => .ok prog
  | n :: rest =>
    let r := irVisit st n
    match r.1 with
    | none => irGenerateGo r.2 prog rest
    | some node =>
      match node with
      | .func .. => irGenerateGo r.2 { prog with functions := prog.functions ++ [node] } rest
      | .cls .. => irGenerateGo r.2 { prog with classes := prog.classes ++ [node] } rest
      | .varDecl .. => irGenerateGo r.2 { prog with globals := prog.globals ++ [node] } rest
      | _ =>
        match prog.mainBody with
        | none => .error attrErrMainBody
        | some l => irGenerateGo r.2 { prog with mainBody := some (l ++ [node]) } rest

/-- `IRGenerator.generate` over the Program statements, for a fresh
generator (`__init__` lowers the language and roots the scope stack at
one empty set; `generate` itself resets `self.ir_program`). -/
def irGenerate (language : String) (stmts : List ASTNode) : Except String IRProgram :=
  irGenerateGo { sourceLanguage := strLower language, scopes := [[]] } IRProgram.init stmts

/-! ## Code generators (`codegen/base_generator.py`,
`codegen/cpp_generator.py`, `codegen/python_generator.py`) -/

/-- Mutable fields of a generator instance: the indentation counters and
output buffer of `BaseGenerator`, plus the `_current_input_prompt`
side-channel attribute that only `CppGenerator` ever touches
(`none` = attribute absent). -/
structure GenState where
  indentLevel : Nat
  generatedCode : List String
  currentInputPrompt : Option String

/-- Fresh generator state as `BaseGenerator.generate` resets it. -/
def GenState.init : GenState :=
  { indentLevel := 0, generatedCode := [], currentInputPrompt := none }

/-- `BaseGenerator.emit` (indent size 4). -/
def gEmit (g : GenState) (code : String) : GenState :=
  if code.trim ≠ "" then
    { g with generatedCode :=
        g.generatedCode ++ [String.mk (List.replicate (g.indentLevel * 4) ' ') ++ code] }
  else
    { g with generatedCode := g.generatedCode ++ [""] }

/-- `BaseGenerator.indent`. -/
def gIndent (g : GenState) : GenState := { g with indentLevel := g.indentLevel + 1 }

/-- `BaseGenerator.dedent` (`max(0, level - 1)`). -/
def gDedent (g : GenState) : GenState := { g with indentLevel := g.indentLevel - 1 }

/-- Python `str(value)` on a literal payload. -/
def pyLitStr : PyLit → String
  | .int n => toString n
  | .float lit => lit
  | .str s => s
  | .bool b => if b then "True" else "False"
  | .null => "None"

/-- Python truthiness of a literal payload (`'true' if node.value else
'false'`).  A float literal counts as falsy exactly when its text spells
zero; no claim below depends on this corner. -/
def pyLitTruthy : PyLit → Bool
  | .int n => n ≠ 0
  | .float lit => ¬ (lit ∈ ["0.0", "0", ".0", "0.", "-0.0"])
  | .str s => s ≠ ""
  | .bool b => b
  | .null => false

/-- `CppGenerator.map_type`. -/
def mapTypeCpp : IRType → String
  | .INT => "int"
  | .FLOAT => "double"
  | .STRING => "string"
  | .BOOL => "bool"
  | .VOID => "void"
  | .ARRAY => "vector<int>"
  | .OBJECT => "void*"
  | .ANY => "auto"

/-- `func_map` of `CppGenerator.visit_call`. -/
def cppFuncMap (name : String) : String :=
  if name = "print" then "cout"
  else if name = "len" then "size"
  else if name = "str" then "to_string"
  else if name = "float" then "stof"
  else name

/-- The tail of `CppGenerator.visit_call` after the special shapes and
after the argument list has been rendered: function-name mapping,
`cout` chains, bare `input`. -/
def cppCallFinish (g : GenState) (name : String) (argsStr : String) :
    String × GenState :=
  let fn := cppFuncMap name
  if fn = "cout" then
    (if argsStr ≠ "" then ("cout << " ++ argsStr ++ " << endl", g) else ("cout << endl", g))
  else if name = "input" then
    let g1 := if argsStr ≠ "" then { g with currentInputPrompt := some argsStr } else g
    ("INPUT_STRING", g1)
  else
    (fn ++ "(" ++ argsStr ++ ")", g)

/-- Return-statement scan of `CppGenerator.visit_function`: the loop
stops at the first `IRReturn` carrying a value. -/
def hasValuedReturn : List IRNode → Bool
  | [] => false
  | .retS (some _) :: _ => true
  | _ :: rest => hasValuedReturn rest

mutual

/-- `CppGenerator` visitor dispatch (`visit_<kind>` on the IR node
kind), embedded as one total match.  `visit_block` is inherited from
`BaseGenerator`. -/
def cppVisit (g : GenState) (node : IRNode) : String × GenState :=
  match node with
  | .func name params rt body _ _ =>
    -- visit_function
    let rt1 := if rt = .VOID ∧ body.isEmpty = false then
                 (if hasValuedReturn body then IRType.ANY else rt)
               else rt
    -- `self.map_type(param_type) if isinstance(param_type, IRType) else 'auto'`:
    -- parameter types are always IRType here, so the isinstance test holds
    let paramStrs := (params.filter (fun p => p.1 ≠ "self")).map
                       (fun p => mapTypeCpp p.2 ++ " " ++ p.1)
    let g1 := gEmit g (mapTypeCpp rt1 ++ " " ++ name ++ "(" ++
                       String.intercalate ", " paramStrs ++ ") \x7b")
    let g2 := if body.isEmpty = false then cppStmts (gIndent g1) body else gIndent g1
    let g3 := gEmit (gDedent g2) "\x7d"
    ("", gEmit g3 "")
  | .cls name methods fields bases =>
    -- visit_class
    let g1 :=
      if bases.isEmpty = false then
        gEmit g ("class " ++ name ++ " : " ++
                 String.intercalate ", " (bases.map (fun b => "public " ++ b)) ++ " \x7b")
      else gEmit g ("class " ++ name ++ " \x7b")
    let g2 := gIndent (gEmit g1 "public:")
    let g3 :=
      if fields.isEmpty = false then
        gEmit (cppFields g2 fields) ""
      else g2
    let g4 := if methods.isEmpty = false then cppSeq g3 methods else g3
    let g5 := gEmit (gDedent g4) "\x7d;"
    ("", gEmit g5 "")
  | .varDecl name t init _ =>
    -- visit_variable
    let vt := mapTypeCpp t
    match init with
    | some iv =>
      let r := cppVisit g iv
      let v := r.1
      let g1 := r.2
      if v = "INPUT_INT" then
        let g2 :=
          match g1.currentInputPrompt with
          | some p => { gEmit g1 ("cout << " ++ p ++ ";") with currentInputPrompt := none }
          | none => g1
        let g3 := gEmit g2 (vt ++ " " ++ name ++ ";")
        ("", gEmit g3 ("cin >> " ++ name ++ ";"))
      else if v = "INPUT_STRING" then
        let g2 :=
          match g1.currentInputPrompt with
          | some p => { gEmit g1 ("cout << " ++ p ++ ";") with currentInputPrompt := none }
          | none => g1
        let g3 := gEmit g2 (vt ++ " " ++ name ++ ";")
        ("", gEmit g3 ("getline(cin, " ++ name ++ ");"))
      else
        ("", gEmit g1 (vt ++ " " ++ name ++ " = " ++ v ++ ";"))
    | none =>
      ("", gEmit g (vt ++ " " ++ name ++ ";"))
  | .assign target value op =>
    -- visit_assignment
    let r := cppVisitOpt g value
    ("", gEmit r.2 (target ++ " " ++ op ++ " " ++ r.1 ++ ";"))
  | .ifS cond thenB elifs elseB =>
    -- visit_if
    let c := cppVisitOpt g cond
    let g1 := gEmit c.2 ("if (" ++ c.1 ++ ") \x7b")
    let g2 := if thenB.isEmpty = false then cppStmts (gIndent g1) thenB else gIndent g1
    let g3 := gEmit (gDedent g2) "\x7d"
    let g4 := cppElifs g3 elifs
    let g5 :=
      if elseB.isEmpty = false then
        let ge := gIndent (gEmit g4 "else \x7b")
        gEmit (gDedent (cppStmts ge elseB)) "\x7d"
      else g4
    ("", g5)
  | .whileS cond body =>
    -- visit_while
    let c := cppVisitOpt g cond
    let g1 := gEmit c.2 ("while (" ++ c.1 ++ ") \x7b")
    let g2 := if body.isEmpty = false then cppStmts (gIndent g1) body else gIndent g1
    ("", gEmit (gDedent g2) "\x7d")
  | .forS v iter body =>
    -- visit_for (range-based)
    let it := cppVisitOpt g iter
    let g1 := gEmit it.2 ("for (auto " ++ v ++ " : " ++ it.1 ++ ") \x7b")
    let g2 := if body.isEmpty = false then cppStmts (gIndent g1) body else gIndent g1
    ("", gEmit (gDedent g2) "\x7d")
  | .retS value =>
    -- visit_return
    (match value with
     | some v =>
       let r := cppVisit g v
       ("", gEmit r.2 ("return " ++ r.1 ++ ";"))
     | none => ("", gEmit g "return;"))
  | .call name args _ =>
    -- visit_call
    if name.endsWith "[]" then
      let real := name.dropRight 2
      match args with
      | a :: _ =>
        let r := cppVisit g a
        (real ++ "[" ++ r.1 ++ "]", r.2)
      | [] => (real ++ "[]", g)
    else if name.contains '.' then
      let r := cppArgs g args
      (name ++ "(" ++ r.1 ++ ")", r.2)
    else
      -- the int(input("prompt")) rewrite: store the prompt, return the
      -- marker; any other shape falls through to the general path
      let special : Option (String × GenState) :=
        match args with
        | [IRNode.call cname inArgs _] =>
          if name = "int" ∧ cname = "input" then
            some (match inArgs with
                  | p :: _ =>
                    let r := cppVisit g p
                    ("INPUT_INT", { r.2 with currentInputPrompt := some r.1 })
                  | [] => ("INPUT_INT", g))
          else none
        | _ => none
      match special with
      | some r => r
      | none =>
        let r := cppArgs g args
        cppCallFinish r.2 name r.1
  | .binOp l op r _ =>
    -- visit_binary_op
    let lv := cppVisitOpt g l
    let rv := cppVisitOpt lv.2 r
    let op1 := if op = "and" then "&&" else if op = "or" then "||"
               else if op = "//" then "/" else op
    ("(" ++ lv.1 ++ " " ++ op1 ++ " " ++ rv.1 ++ ")", rv.2)
  | .unOp op operand _ =>
    -- visit_unary_op
    let ov := cppVisitOpt g operand
    let op1 := if op = "not" then "!" else op
    (op1 ++ ov.1, ov.2)
  | .lit v t =>
    -- visit_literal
    if t = .STRING then
      ("\x22" ++ (pyLitStr v).replace "\x22" "\\\x22" ++ "\x22", g)
    else if t = .BOOL then
      (if pyLitTruthy v then ("true", g) else ("false", g))
    else if t = .VOID ∨ v = .null then ("nullptr", g)
    else if t = .FLOAT then (pyLitStr v, g)
    else (pyLitStr v, g)
  | .ident name _ => (name, g)
  | .blockS stmts =>
    -- BaseGenerator.visit_block
    ("", cppSeq g stmts)
termination_by sizeOf node

/-- `self.visit(x)` where `x` may be `None` (returns `""`). -/
def cppVisitOpt (g : GenState) (o : Option IRNode) : String × GenState :=
  match o with
  | some n => cppVisit g n
  | none => ("", g)
termination_by sizeOf o

/-- Statement loop `code = self.visit(stmt); if code and code.strip():
self.emit(code + ";")`. -/
def cppStmts (g : GenState) (l : List IRNode) : GenState :=
  match l with
  | [] => g
  | n :: rest =>
    let r := cppVisit g n
    let g1 := if r.1 ≠ "" ∧ r.1.trim ≠ "" then gEmit r.2 (r.1 ++ ";") else r.2
    cppStmts g1 rest
termination_by sizeOf l

/-- Plain visit loop that discards the returned strings (used for class
methods and by `BaseGenerator.generate`). -/
def cppSeq (g : GenState) (l : List IRNode) : GenState :=
  match l with
  | [] => g
  | n :: rest => cppSeq (cppVisit g n).2 rest
termination_by sizeOf l

/-- Field loop of `CppGenerator.visit_class` (fields are `IRVariable`
nodes wherever this generator is reached; any other node kind would
fault on attribute access in the source and is left as a no-op). -/
def cppFields (g : GenState) : List IRNode → GenState
  | [] => g
  | .varDecl n t _ _ :: rest => cppFields (gEmit g (mapTypeCpp t ++ " " ++ n ++ ";")) rest
  | _ :: rest => cppFields g rest

/-- Elif loop of `CppGenerator.visit_if`. -/
def cppElifs (g : GenState) (l : List (Option IRNode × List IRNode)) : GenState :=
  match l with
  | [] => g
  | (c, body) :: rest =>
    let r := cppVisitOpt g c
    let g1 := gEmit r.2 ("else if (" ++ r.1 ++ ") \x7b")
    let g2 := if body.isEmpty = false then cppStmts (gIndent g1) body else gIndent g1
    cppElifs (gEmit (gDedent g2) "\x7d") rest
termination_by sizeOf l

/-- Argument list `', '.join([self.visit(arg) for arg in args])`. -/
def cppArgs (g : GenState) (l : List IRNode) : String × GenState :=
  match l with
  | [] => ("", g)
  | [a] => cppVisit g a
  | a :: rest =>
    let r := cppVisit g a
    let rs := cppArgs r.2 rest
    (r.1 ++ ", " ++ rs.1, rs.2)
termination_by sizeOf l

end

/-- `CppGenerator.generate_imports`. -/
def cppImports (g : GenState) : GenState :=
  gEmit (gEmit (gEmit (gEmit g "#include <iostream>") "#include <string>")
        "using namespace std;") ""

/-- `CppGenerator.generate_main`: defined by the C++ emitter but invoked
by no code path of its `generate` (only the Variant-J emitter calls its
own `generate_main`). -/
def cppGenerateMain (g : GenState) (statements : List IRNode) : GenState :=
  let g1 := gIndent (gEmit g "int main() \x7b")
  let g2 := cppStmts g1 statements
  let g3 := gEmit g2 "return 0;"
  gEmit (gDedent g3) "\x7d"

/-- `BaseGenerator.generate` as inherited by `CppGenerator`: headers,
then the `globals`, `classes` and `functions` lists of the IR program,
joined with newlines. -/
def cppGenerate (p : IRProgram) : String :=
  let g1 := cppImports GenState.init
  let g2 := cppSeq g1 p.globals
  let g3 := cppSeq g2 p.classes
  let g4 := cppSeq g3 p.functions
  String.intercalate "\n" g4.generatedCode

/-- `func_map` of `PythonGenerator.visit_call`. -/
def pyFuncMap (name : String) : String :=
  if name = "stoi" then "int"
  else if name = "to_string" then "str"
  else if name = "read_input" then "input"
  else if name = "size" then "len"
  else if name = "length" then "len"
  else if name = "System.out.println" then "print"
  else if name = "System.out.print" then "print"
  else if name = "Integer.parseInt" then "int"
  else if name = "Double.parseDouble" then "float"
  else if name = "scanner.nextLine" then "input"
  else if name = "scanner.nextInt" then "int(input())"
  else if name = "Math.max" then "max"
  else if name = "Math.min" then "min"
  else if name = "Math.abs" then "abs"
  else if name = "Math.sqrt" then "math.sqrt"
  else name

/-- `PythonGenerator.is_cout_stream`. -/
def pyIsCout : Option IRNode → Bool
  | some (.ident n _) => n = "cout"
  | some (.binOp l op _ _) => if op = "<<" then pyIsCout l else false
  | _ => false

mutual

/-- `PythonGenerator` visitor dispatch, embedded as one total match. -/
def pyVisit (g : GenState) (node : IRNode) : String × GenState :=
  match node with
  | .func name params _ body _ _ =>
    -- visit_function
    let g1 := gEmit g ("def " ++ name ++ "(" ++
                       String.intercalate ", " (params.map (·.1)) ++ "):")
    let g2 := if body.isEmpty = false then pyStmts (gIndent g1) body else gEmit (gIndent g1) "pass"
    ("", gEmit (gDedent g2) "")
  | .cls name methods fields bases =>
    -- visit_class
    let g1 :=
      if bases.isEmpty = false then
        gEmit g ("class " ++ name ++ "(" ++ String.intercalate ", " bases ++ "):")
      else gEmit g ("class " ++ name ++ ":")
    let g2 := gIndent g1
    let g3 := if fields.isEmpty = false then pySeq g2 fields else g2
    let g4 := if methods.isEmpty = false then pySeq g3 methods else g3
    let g5 := if fields.isEmpty ∧ methods.isEmpty then gEmit g4 "pass" else g4
    ("", gEmit (gDedent g5) "")
  | .varDecl name _ init _ =>
    -- visit_variable
    (match init with
     | some iv =>
       let r := pyVisit g iv
       ("", gEmit r.2 (name ++ " = " ++ r.1))
     | none => ("", gEmit g (name ++ " = None")))
  | .assign target value op =>
    -- visit_assignment
    let r := pyVisitOpt g value
    ("", gEmit r.2 (target ++ " " ++ op ++ " " ++ r.1))
  | .ifS cond thenB elifs elseB =>
    -- visit_if
    let c := pyVisitOpt g cond
    let g1 := gEmit c.2 ("if " ++ c.1 ++ ":")
    let g2 := if thenB.isEmpty = false then pyStmts (gIndent g1) thenB else gEmit (gIndent g1) "pass"
    let g3 := pyElifs (gDedent g2) elifs
    let g4 :=
      if elseB.isEmpty = false then
        gDedent (pyStmts (gIndent (gEmit g3 "else:")) elseB)
      else g3
    ("", g4)
  | .whileS cond body =>
    -- visit_while
    let c := pyVisitOpt g cond
    let g1 := gEmit c.2 ("while " ++ c.1 ++ ":")
    let g2 := if body.isEmpty = false then pyStmts (gIndent g1) body else gEmit (gIndent g1) "pass"
    ("", gDedent g2)
  | .forS v iter body =>
    -- visit_for
    let it := pyVisitOpt g iter
    let g1 := gEmit it.2 ("for " ++ v ++ " in " ++ it.1 ++ ":")
    let g2 := if body.isEmpty = false then pyStmts (gIndent g1) body else gEmit (gIndent g1) "pass"
    ("", gDedent g2)
  | .retS value =>
    -- visit_return
    (match value with
     | some v =>
       let r := pyVisit g v
       ("", gEmit r.2 ("return " ++ r.1))
     | none => ("", gEmit g "return"))
  | .call name args _ =>
    -- visit_call
    let r := pyArgs g args
    let fn := pyFuncMap name
    if name = "System.out.print" then
      ("print(" ++ r.1 ++ ", end=\x27\x27)", r.2)
    else
      (fn ++ "(" ++ r.1 ++ ")", r.2)
  | .binOp l op r t =>
    -- visit_binary_op, including the cout-stream rewrite.  The call
    -- `collect_stream_args(node)` immediately takes the `<<`-chain case
    -- on this very node, so its first unfolding is written in place:
    -- collect the left subtree, then the right subtree.
    if op = "<<" ∧ pyIsCout (some (.binOp l op r t)) then
      let ls := pyCollectStream g l
      let rs := pyCollectStream ls.2 r
      ("print(" ++ String.intercalate ", " (ls.1 ++ rs.1) ++ ", sep=\x27\x27, end=\x27\x27)", rs.2)
    else
      let lv := pyVisitOpt g l
      let rv := pyVisitOpt lv.2 r
      let op1 := if op = "&&" then "and" else if op = "||" then "or" else op
      if op1 = "+" then
        (lv.1 ++ " " ++ op1 ++ " " ++ rv.1, rv.2)
      else
        ("(" ++ lv.1 ++ " " ++ op1 ++ " " ++ rv.1 ++ ")", rv.2)
  | .unOp op operand _ =>
    -- visit_unary_op
    let ov := pyVisitOpt g operand
    let op1 := if op = "!" then "not " else op
    (op1 ++ ov.1, ov.2)
  | .lit v t =>
    -- visit_literal
    if t = .STRING then
      ("\x27" ++ (pyLitStr v).replace "\x27" "\\\x27" ++ "\x27", g)
    else if t = .BOOL then
      (if pyLitTruthy v then ("True", g) else ("False", g))
    else if t = .VOID ∨ v = .null then ("None", g)
    else (pyLitStr v, g)
  | .ident name _ => (name, g)
  | .blockS stmts =>
    -- BaseGenerator.visit_block
    ("", pySeq g stmts)

/-- `self.visit(x)` where `x` may be `None`. -/
def pyVisitOpt (g : GenState) : Option IRNode → String × GenState
  | some n => pyVisit g n
  | none => ("", g)

/-- Statement loop `code = self.visit(stmt); if code: self.emit(code)`. -/
def pyStmts (g : GenState) : List IRNode → GenState
  | [] => g
  | n :: rest =>
    let r := pyVisit g n
    let g1 := if r.1 ≠ "" then gEmit r.2 r.1 else r.2
    pyStmts g1 rest

/-- Plain visit loop discarding returned strings. -/
def pySeq (g : GenState) : List IRNode → GenState
  | [] => g
  | n :: rest => pySeq (pyVisit g n).2 rest

/-- Elif loop of `PythonGenerator.visit_if`. -/
def pyElifs (g : GenState) : List (Option IRNode × List IRNode) → GenState
  | [] => g
  | (c, body) :: rest =>
    let r := pyVisitOpt g c
    let g1 := gEmit r.2 ("elif " ++ r.1 ++ ":")
    let g2 := if body.isEmpty = false then pyStmts (gIndent g1) body else gEmit (gIndent g1) "pass"
    pyElifs (gDedent g2) rest

/-- Argument list join of `PythonGenerator.visit_call`. -/
def pyArgs (g : GenState) : List IRNode → String × GenState
  | [] => ("", g)
  | [a] => pyVisit g a
  | a :: rest =>
    let r := pyVisit g a
    let rs := pyArgs r.2 rest
    (r.1 ++ ", " ++ rs.1, rs.2)

/-- `PythonGenerator.collect_stream_args`. -/
def pyCollectStream (g : GenState) : Option IRNode → List String × GenState
  | some (.binOp l op r t) =>
    if op = "<<" then
      let ls := pyCollectStream g l
      let rs := pyCollectStream ls.2 r
      (ls.1 ++ rs.1, rs.2)
    else
      let v := pyVisit g (.binOp l op r t)
      ([v.1], v.2)
  | some (.ident n t) =>
    if n = "cout" then ([], g)
    else if n = "endl" then (["\x27\\n\x27"], g)
    else
      let v := pyVisit g (.ident n t)
      ([v.1], v.2)
  | some other =>
    let v := pyVisit g other
    ([v.1], v.2)
  | none => ([""], g)

end

/-- `PythonGenerator.generate`: the inherited `BaseGenerator.generate`
walk (its `generate_imports` emits nothing), then the conditional
entry-point trailer appended only when a function literally named `main`
exists among the program functions. -/
def pyGenerate (p : IRProgram) : String :=
  let g1 := GenState.init
  let g2 := pySeq g1 p.globals
  let g3 := pySeq g2 p.classes
  let g4 := pySeq g3 p.functions
  let code := String.intercalate "\n" g4.generatedCode
  let hasMain := p.functions.any fun n =>
    match n with
    | .func nm _ _ _ _ _ => nm = "main"
    | _ => false
  if hasMain then code ++ "\n\nif __name__ == \x22__main__\x22:\n    main()"
  else code

/-! ## Variant-J parser lookahead (`parser/java_parser.py`,
`parser/base_parser.py`) -/

/-- Parser cursor of `BaseParser`: token list, position, and the
`current_token` field (`tokens[position]` when in range, else `None`). -/
structure JPState where
  tokens : List Token
  position : Nat
  current : Option Token
  deriving Repr, DecidableEq

/-- `BaseParser.advance`. -/
def jAdvance (s : JPState) : JPState :=
  { s with position := s.position + 1, current := s.tokens[s.position + 1]? }

/-- Position restore of `is_method_declaration`:
`self.position = saved_pos; self.current_token = self.tokens[self.position]`.
The plain list indexing is in bounds at every call site (the parser only
runs the lookahead while a current token exists). -/
def jRestore (s : JPState) (saved : Nat) : JPState :=
  { s with position := saved, current := s.tokens[saved]? }

/-- Modifier spellings skipped by the lookahead. -/
def jModifiers : List String := ["public", "private", "protected", "static"]

/-- Modifier-skipping loop of `is_method_declaration`. -/
def skipModifiers : Nat → JPState → JPState
  | 0, s => s
  | f + 1, s =>
    match s.current with
    | some t =>
      if (match t.value with | PyValue.str v => jModifiers.contains v | _ => false) then
        skipModifiers f (jAdvance s)
      else s
    | none => s

/-- `JavaParser.is_method_declaration`: bounded lookahead for
`[modifiers] KEYWORD IDENTIFIER (`; saves and restores the parser
position.  The fuel bounds only the modifier-skipping loop. -/
def isMethodDeclaration (f : Nat) (s : JPState) : Bool × JPState :=
  let saved := s.position
  let s1 := skipModifiers f s
  if (match s1.current with | some t => t.type == TokenType.KEYWORD | none => false) then
    let s2 := jAdvance s1
    if (match s2.current with | some t => t.type == TokenType.IDENTIFIER | none => false) then
      let s3 := jAdvance s2
      -- `is_method = self.current_token and ... == LPAREN` (None is falsy)
      let isM := (match s3.current with | some t => t.type == TokenType.LPAREN | none => false)
      (isM, jRestore s3 saved)
    else (false, jRestore s2 saved)
  else (false, jRestore s1 saved)

/-! ## Verification vocabulary -/

/-- Number of tokens of one kind in a token sequence. -/
def countTok (t : TokenType) : List Token → Nat
  | [] => 0
  | tok :: rest => (if tok.type = t then 1 else 0) + countTok t rest

/-! # Theorems -/

section C4Helpers

@[simp] theorem countTok_nil (t : TokenType) : countTok t [] = 0 := rfl

@[simp] theorem countTok_cons (t : TokenType) (tok : Token) (rest : List Token) :
    countTok t (tok :: rest) = (if tok.type = t then 1 else 0) + countTok t rest := rfl

@[simp] theorem countTok_append (t : TokenType) (a b : List Token) :
    countTok t (a ++ b) = countTok t a + countTok t b := by
  induction a with
  | nil => simp
  | cons x xs ih => simp [ih]; omega

@[simp] theorem advance_stack (s : LexSt) : s.advance.indentStack = s.indentStack := by
  unfold LexSt.advance
  split <;> rfl

@[simp] theorem skipWSInline_stack (f : Nat) (s : LexSt) :
    (skipWSInline f s).indentStack = s.indentStack := by
  induction f generalizing s with
  | zero => rfl
  | succ f ih =>
    unfold skipWSInline
    cases s.cur with
    | none => rfl
    | some c =>
      dsimp only
      split
      · rw [ih, advance_stack]
      · rfl

@[simp] theorem skipLine_stack (f : Nat) (s : LexSt) :
    (skipLine f s).indentStack = s.indentStack := by
  induction f generalizing s with
  | zero => rfl
  | succ f ih =>
    unfold skipLine
    cases s.cur with
    | none => rfl
    | some c =>
      dsimp only
      split
      · rw [ih, advance_stack]
      · rfl

@[simp] theorem readNumberGo_stack (f : Nat) (s : LexSt) (acc : String) (b : Bool) :
    (readNumberGo f s acc b).2.2.indentStack = s.indentStack := by
  induction f generalizing s acc b with
  | zero => rfl
  | succ f ih =>
    unfold readNumberGo
    cases s.cur with
    | none => rfl
    | some c =>
      dsimp only
      split
      · split
        · rfl
        · rw [ih, advance_stack]
      · rfl

@[simp] theorem readNumber_stack (f : Nat) (s : LexSt) :
    (readNumber f s).2.indentStack = s.indentStack := by
  unfold readNumber
  dsimp only
  split <;> simp

theorem readNumber_type (f : Nat) (s : LexSt) :
    (readNumber f s).1.type = .FLOAT ∨ (readNumber f s).1.type = .INTEGER := by
  unfold readNumber
  dsimp only
  split
  · left; rfl
  · right; rfl

@[simp] theorem readIdentGo_stack (f : Nat) (s : LexSt) (acc : String) :
    (readIdentGo f s acc).2.indentStack = s.indentStack := by
  induction f generalizing s acc with
  | zero => rfl
  | succ f ih =>
    unfold readIdentGo
    cases s.cur with
    | none => rfl
    | some c =>
      dsimp only
      split
      · rw [ih, advance_stack]
      · rfl

@[simp] theorem readIdentifier_stack (f : Nat) (ks : List String) (s : LexSt) :
    (readIdentifier f ks s).2.indentStack = s.indentStack := by
  unfold readIdentifier
  simp

theorem readIdentifier_type (f : Nat) (ks : List String) (s : LexSt) :
    (readIdentifier f ks s).1.type = .KEYWORD ∨ (readIdentifier f ks s).1.type = .IDENTIFIER := by
  unfold readIdentifier
  dsimp only
  split
  · left; rfl
  · right; rfl

@[simp] theorem tripleGo_stack (f : Nat) (q : Char) (s : LexSt) (acc : String) :
    (tripleGo f q s acc).2.indentStack = s.indentStack := by
  induction f generalizing s acc with
  | zero => rfl
  | succ f ih =>
    unfold tripleGo
    cases s.cur with
    | none => rfl
    | some c =>
      dsimp only
      split
      · simp
      · rw [ih, advance_stack]

theorem readStringGo_stack (f : Nat) (q : Char) (s : LexSt) (acc : String)
    (txt : String) (sOut : LexSt) (h : readStringGo f q s acc = .ok (txt, sOut)) :
    sOut.indentStack = s.indentStack := by
  induction f generalizing s acc with
  | zero =>
    simp only [readStringGo, Except.ok.injEq, Prod.mk.injEq] at h
    rw [← h.2]
  | succ f ih =>
    unfold readStringGo at h
    split at h
    · simp only [Except.ok.injEq, Prod.mk.injEq] at h
      rw [← h.2]
    · split at h
      · simp only [Except.ok.injEq, Prod.mk.injEq] at h
        rw [← h.2]
      · split at h
        · dsimp only at h
          split at h
          · simp at h
          · have := ih _ _ h
            simpa using this
        · have := ih _ _ h
          simpa using this

theorem readString_spec (f : Nat) (q : Char) (s : LexSt) (tok : Token) (sOut : LexSt)
    (h : readString f q s = .ok (tok, sOut)) :
    tok.type = .STRING ∧ sOut.indentStack = s.indentStack := by
  unfold readString at h
  cases hgo : readStringGo f q s.advance "" with
  | error e => rw [hgo] at h; simp at h
  | ok p =>
    obtain ⟨ptxt, ps⟩ := p
    rw [hgo] at h
    dsimp only at h
    have hst : ps.indentStack = s.indentStack := by
      have := readStringGo_stack f q s.advance "" ptxt ps hgo
      simpa using this
    split at h
    · simp only [Except.ok.injEq, Prod.mk.injEq] at h
      obtain ⟨h1, h2⟩ := h
      exact ⟨by rw [← h1], by rw [← h2]; simpa using hst⟩
    · simp only [Except.ok.injEq, Prod.mk.injEq] at h
      obtain ⟨h1, h2⟩ := h
      exact ⟨by rw [← h1], by rw [← h2]; exact hst⟩

@[simp] theorem fstringExpr_stack (f : Nat) (s : LexSt) (acc : String) (d : Nat) :
    (fstringExpr f s acc d).2.indentStack = s.indentStack := by
  induction f generalizing s acc d with
  | zero => rfl
  | succ f ih =>
    unfold fstringExpr
    cases s.cur with
    | none => rfl
    | some c =>
      dsimp only
      split
      · rw [ih, advance_stack]
      · split
        · split
          · rfl
          · rw [ih, advance_stack]
        · rw [ih, advance_stack]

@[simp] theorem fstringBody_stack (f : Nat) (q : Char) (s : LexSt) (part : String)
    (parts : List FPart) : (fstringBody f q s part parts).2.indentStack = s.indentStack := by
  induction f generalizing s part parts with
  | zero => rfl
  | succ f ih =>
    unfold fstringBody
    cases s.cur with
    | none => rfl
    | some c =>
      dsimp only
      split
      · rfl
      · split
        · cases s.advance.cur with
          | none => dsimp only; rw [ih, advance_stack]
          | some e => dsimp only; rw [ih, advance_stack, advance_stack]
        · split
          · split
            · rw [ih, advance_stack, advance_stack]
            · rw [ih, advance_stack, fstringExpr_stack, advance_stack]
          · split
            · split
              · rw [ih, advance_stack, advance_stack]
              · rw [ih, advance_stack]
            · rw [ih, advance_stack]

set_option maxHeartbeats 2000000 in
theorem pySingleCharToken_not_indent (c : Char) (t : TokenType)
    (h : pySingleCharToken c = some t) : t ≠ .INDENT ∧ t ≠ .DEDENT := by
  unfold pySingleCharToken at h
  cases hf : pySingleCharTokens.find? (fun p => p.1 == c) with
  | none => rw [hf] at h; simp at h
  | some p =>
    rw [hf] at h
    simp only [Option.map_some', Option.some.injEq] at h
    subst h
    have hmem := List.mem_of_find?_eq_some hf
    fin_cases hmem <;> decide


theorem pyTwoCharOps_type (e : (Char × Char) × TokenType × String)
    (h : e ∈ pyTwoCharOps) : e.2.1 ≠ .INDENT ∧ e.2.1 ≠ .DEDENT := by
  fin_cases h <;> decide

theorem pyOpTok_preserves (s : LexSt) (acc : List Token) (c : Char) :
    countTok .INDENT (pyOpTok s acc c).2.2 = countTok .INDENT acc ∧
    countTok .DEDENT (pyOpTok s acc c).2.2 = countTok .DEDENT acc ∧
    (pyOpTok s acc c).2.1.indentStack = s.indentStack := by
  unfold pyOpTok
  cases hf : pyTwoCharOps.find? (fun e => e.1.1 == c && s.peek 1 == some e.1.2) with
  | some e =>
    have hne := pyTwoCharOps_type e (List.mem_of_find?_eq_some hf)
    refine ⟨?_, ?_, ?_⟩ <;> simp [makeToken, hne.1, hne.2]
  | none =>
    cases hs : pySingleCharToken c with
    | some t =>
      have hne := pySingleCharToken_not_indent c t hs
      refine ⟨?_, ?_, ?_⟩ <;> simp [makeToken, hne.1, hne.2]
    | none => refine ⟨?_, ?_, ?_⟩ <;> simp

theorem pyStringTok_preserves (s : LexSt) (acc : List Token) (c : Char)
    (als' : Bool) (s' : LexSt) (acc' : List Token)
    (h : pyStringTok s acc c = .ok (als', s', acc')) :
    countTok .INDENT acc' = countTok .INDENT acc ∧
    countTok .DEDENT acc' = countTok .DEDENT acc ∧
    s'.indentStack = s.indentStack := by
  unfold pyStringTok at h
  split at h
  · simp only [Except.ok.injEq, Prod.mk.injEq] at h
    obtain ⟨-, h2, h3⟩ := h
    subst h2; subst h3
    refine ⟨?_, ?_, ?_⟩ <;> simp
  · cases hr : readString (bud s) c s with
    | error e => rw [hr] at h; simp at h
    | ok p =>
      obtain ⟨tok, s1⟩ := p
      have hspec := readString_spec _ _ _ _ _ hr
      rw [hr] at h
      simp only [Except.ok.injEq, Prod.mk.injEq] at h
      obtain ⟨-, h2, h3⟩ := h
      subst h2; subst h3
      refine ⟨?_, ?_, hspec.2⟩ <;> simp [hspec.1]

theorem pyStepRest_preserves (s : LexSt) (acc : List Token) (c : Char)
    (als' : Bool) (s' : LexSt) (acc' : List Token)
    (h : pyStepRest s acc c = .ok (als', s', acc')) :
    countTok .INDENT acc' = countTok .INDENT acc ∧
    countTok .DEDENT acc' = countTok .DEDENT acc ∧
    s'.indentStack = s.indentStack := by
  unfold pyStepRest at h
  split_ifs at h with h1 h2
  · exact pyStringTok_preserves _ _ _ _ _ _ h
  · simp only [Except.ok.injEq, Prod.mk.injEq] at h
    obtain ⟨-, hs2, hs3⟩ := h
    subst hs2; subst hs3
    rcases readIdentifier_type (bud s) PYTHON_KEYWORDS s with ht | ht <;>
      exact ⟨by simp [ht], by simp [ht], by simp⟩
  · simp only [Except.ok.injEq] at h
    have hp := pyOpTok_preserves s acc c
    rw [h] at hp
    exact hp

theorem pyStep_preserves (als : Bool) (s : LexSt) (acc : List Token) (c : Char)
    (als' : Bool) (s' : LexSt) (acc' : List Token)
    (h : pyStep als s acc c = .ok (als', s', acc')) :
    countTok .INDENT acc' = countTok .INDENT acc ∧
    countTok .DEDENT acc' = countTok .DEDENT acc ∧
    s'.indentStack = s.indentStack := by
  unfold pyStep at h
  split_ifs at h with h1 h2 h3 h4
  · simp only [Except.ok.injEq, Prod.mk.injEq] at h
    obtain ⟨-, hs2, hs3⟩ := h
    subst hs2; subst hs3
    exact ⟨rfl, rfl, by simp⟩
  · simp only [Except.ok.injEq, Prod.mk.injEq] at h
    obtain ⟨-, hs2, hs3⟩ := h
    subst hs2; subst hs3
    exact ⟨by simp [makeToken], by simp [makeToken], by simp⟩
  · simp only [Except.ok.injEq, Prod.mk.injEq] at h
    obtain ⟨-, hs2, hs3⟩ := h
    subst hs2; subst hs3
    exact ⟨rfl, rfl, by simp⟩
  · simp only [Except.ok.injEq, Prod.mk.injEq] at h
    obtain ⟨-, hs2, hs3⟩ := h
    subst hs2; subst hs3
    rcases readNumber_type (bud s) s with ht | ht <;>
      exact ⟨by simp [ht], by simp [ht], by simp⟩
  · split at h
    · split at h
      · simp only [Except.ok.injEq, Prod.mk.injEq] at h
        obtain ⟨-, hs2, hs3⟩ := h
        subst hs2; subst hs3
        exact ⟨by simp, by simp, by simp⟩
      · exact pyStepRest_preserves _ _ _ _ _ _ h
    · exact pyStepRest_preserves _ _ _ _ _ _ h

@[simp] theorem countIndentGo_stack (f : Nat) (s : LexSt) (lvl : Nat) :
    (countIndentGo f s lvl).2.indentStack = s.indentStack := by
  induction f generalizing s lvl with
  | zero => rfl
  | succ f ih =>
    unfold countIndentGo
    cases s.cur with
    | none => rfl
    | some c =>
      dsimp only
      split
      · rw [ih, advance_stack]
      · split
        · rw [ih, advance_stack]
        · rfl

theorem dedentPops_counts (stack : List Nat) (lvl : Nat) (line : Int) :
    countTok .INDENT (dedentPops stack lvl line).1 = 0 ∧
    countTok .DEDENT (dedentPops stack lvl line).1 +
      (dedentPops stack lvl line).2.length = stack.length := by
  induction stack with
  | nil => simp [dedentPops]
  | cons top rest ih =>
    unfold dedentPops
    dsimp only
    split
    · refine ⟨by simpa using ih.1, ?_⟩
      have h2 := ih.2
      simp only [countTok_cons, List.length_cons]
      norm_num
      omega
    · simp

theorem dedentPops_last (stack : List Nat) (lvl : Nat) (line : Int)
    (h : stack.getLast? = some 0) :
    (dedentPops stack lvl line).2.getLast? = some 0 := by
  induction stack with
  | nil => simp at h
  | cons top rest ih =>
    unfold dedentPops
    dsimp only
    split
    · rename_i hlt
      cases rest with
      | nil =>
        simp at h
        omega
      | cons b bs =>
        exact ih (by simpa [List.getLast?_cons_cons] using h)
    · exact h

theorem handleIndentation_spec (f : Nat) (s : LexSt) (toks : List Token) (s1 : LexSt)
    (h : handleIndentation f s = .ok (toks, s1)) :
    countTok .INDENT toks + s.indentStack.length =
      countTok .DEDENT toks + s1.indentStack.length ∧
    (s.indentStack.getLast? = some 0 → s1.indentStack.getLast? = some 0) := by
  unfold handleIndentation at h
  dsimp only at h
  have hst : (countIndentGo f s 0).2.indentStack = s.indentStack := countIndentGo_stack f s 0
  cases hm : (countIndentGo f s 0).2.indentStack with
  | nil => rw [hm] at h; simp at h
  | cons top rest =>
    rw [hm] at hst
    rw [hm] at h
    dsimp only at h
    split_ifs at h with hpush hpop
    · simp only [Except.ok.injEq, Prod.mk.injEq] at h
      obtain ⟨h1, h2⟩ := h
      subst h1; subst h2
      constructor
      · simp only [countTok_cons, countTok_nil]
        rw [← hst]
        simp
        omega
      · intro hlast
        rw [← hst] at hlast
        simpa [List.getLast?_cons_cons] using hlast
    · simp only [Except.ok.injEq, Prod.mk.injEq] at h
      obtain ⟨h1, h2⟩ := h
      subst h1; subst h2
      have hc := dedentPops_counts (top :: rest) 
        (countIndentGo f s 0).1 (countIndentGo f s 0).2.line
      constructor
      · rw [← hst]
        simp only [hc.1]
        have := hc.2
        omega
      · intro hlast
        rw [← hst] at hlast
        simpa using dedentPops_last (top :: rest) _ _ hlast
    · simp only [Except.ok.injEq, Prod.mk.injEq] at h
      obtain ⟨h1, h2⟩ := h
      subst h1; subst h2
      refine ⟨by rw [← hst, hm]; simp, ?_⟩
      intro hlast
      rw [← hst] at hlast
      rw [hm]
      exact hlast

theorem flushDedents_counts (stack : List Nat) (line col : Int) :
    countTok .INDENT (flushDedents stack line col) = 0 ∧
    countTok .DEDENT (flushDedents stack line col) = stack.length - 1 := by
  induction stack with
  | nil => simp [flushDedents]
  | cons top rest ih =>
    cases rest with
    | nil => simp [flushDedents]
    | cons b bs =>
      unfold flushDedents
      refine ⟨by simpa using ih.1, ?_⟩
      have h2 := ih.2
      simp only [countTok_cons, List.length_cons] at h2 ⊢
      norm_num
      omega

theorem pyLoop_balance (f : Nat) : ∀ (als : Bool) (s : LexSt) (acc toks : List Token),
    s.indentStack.getLast? = some 0 →
    countTok .INDENT acc + 1 = countTok .DEDENT acc + s.indentStack.length →
    pyLoop f als s acc = .ok toks →
    countTok .INDENT toks = countTok .DEDENT toks := by
  induction f with
  | zero =>
    intro als s acc toks hlast hbal h
    simp [pyLoop] at h
  | succ f ih =>
    intro als s acc toks hlast hbal h
    have hne : s.indentStack ≠ [] := by
      intro he
      rw [he] at hlast
      simp at hlast
    have hlen : 1 ≤ s.indentStack.length := by
      cases hs : s.indentStack with
      | nil => exact absurd hs hne
      | cons a l => simp
    unfold pyLoop at h
    cases hc : s.cur with
    | none =>
      rw [hc] at h
      simp only [Except.ok.injEq] at h
      subst h
      have hf := flushDedents_counts s.indentStack s.line s.column
      simp [hf.1, hf.2]
      omega
    | some c =>
      rw [hc] at h
      dsimp only at h
      split_ifs at h with hals
      · cases hh : handleIndentation (bud s) s with
        | error e => rw [hh] at h; simp at h
        | ok p =>
          obtain ⟨itoks, s1⟩ := p
          have hspec := handleIndentation_spec _ _ _ _ hh
          rw [hh] at h
          dsimp only at h
          cases hc1 : s1.cur with
          | none => rw [hc1] at h; simp at h
          | some c1 =>
            rw [hc1] at h
            dsimp only at h
            have hlast1 : s1.indentStack.getLast? = some 0 := hspec.2 hlast
            have hbal1 : countTok .INDENT (acc ++ itoks) + 1 =
                countTok .DEDENT (acc ++ itoks) + s1.indentStack.length := by
              simp only [countTok_append]
              have := hspec.1
              omega
            split_ifs at h with hws
            · exact ih false s1 (acc ++ itoks) toks hlast1 hbal1 h
            · cases hps : pyStep false s1 (acc ++ itoks) c1 with
              | error e => rw [hps] at h; simp at h
              | ok q =>
                obtain ⟨a2, s2, acc2⟩ := q
                have hpres := pyStep_preserves _ _ _ _ _ _ _ hps
                rw [hps] at h
                dsimp only at h
                refine ih a2 s2 acc2 toks ?_ ?_ h
                · rw [hpres.2.2]; exact hlast1
                · rw [hpres.1, hpres.2.1, hpres.2.2]; exact hbal1
      · cases hps : pyStep als s acc c with
        | error e => rw [hps] at h; simp at h
        | ok q =>
          obtain ⟨a2, s2, acc2⟩ := q
          have hpres := pyStep_preserves _ _ _ _ _ _ _ hps
          rw [hps] at h
          dsimp only at h
          refine ih a2 s2 acc2 toks ?_ ?_ h
          · rw [hpres.2.2]; exact hlast
          · rw [hpres.1, hpres.2.1, hpres.2.2]; exact hbal

end C4Helpers

/-- C1: the claim states that `IRGenerator.generate` buckets every
top-level statement into the `functions`, `classes`, `globals` or
`main_body` list of the produced `IRProgram`, and that `IRProgram` owns
all four lists.  `IRProgram.__init__` creates only the first three
lists, so the first top-level statement routed to the fourth bucket
makes `self.ir_program.main_body.append(...)` raise `AttributeError`:
lowering a program whose only statement is a bare `print(1)` call fails
instead of producing an IR program. -/
theorem c1_generate_main_body_attribute_crash :
    irGenerate "python"
      [.expressionStatement (.functionCall "print" [.literal (.int 1) "int"])] =
      .error attrErrMainBody := rfl

/-- C2: the claim states that `tokenize` never raises for any input.
The Variant-P lexer evaluates `self.current_char in ' \t'` right after
the indentation scan; on the input `" "` (one space) that scan consumes
the whole text, `current_char` is `None`, and the membership test raises
`TypeError` — `tokenize` crashes instead of returning a token list. -/
theorem c2_tokenize_raises_on_trailing_whitespace :
    pythonTokenize " " = .error (.typeErr noneInStrMsg) := rfl

/-- C3: the claim states that every token carries the line and column of
its first character, so the token `b` in the source `"a\nb"` (second
physical line) should carry line 2, column 1.  No lexer ever increments
`self.line` or resets `self.column` at a newline, so that token carries
line 1, column 3. -/
theorem c3_token_line_never_advances :
    pythonTokenize "a\nb" = .ok
      [{ type := .IDENTIFIER, value := .str "a", line := 1, column := 1 },
       { type := .NEWLINE, value := .str "\n", line := 1, column := 1 },
       { type := .IDENTIFIER, value := .str "b", line := 1, column := 3 },
       { type := .EOF, value := .none, line := 1, column := 3 }] := rfl

/-- C4: for every Variant-P input on which `tokenize` returns, the
token sequence contains exactly as many DEDENT tokens as INDENT tokens:
the indent stack grows only on a strictly larger width (emitting one
INDENT), shrinks only by pops that each emit one DEDENT, and the
end-of-input flush pops everything above the base level. -/
theorem c4_indent_dedent_balanced (source : String) (toks : List Token)
    (h : pythonTokenize source = .ok toks) :
    countTok .INDENT toks = countTok .DEDENT toks := by
  unfold pythonTokenize at h
  exact pyLoop_balance _ true _ [] toks (by simp) (by simp) h

/-- C4 witness: a two-level Variant-P program tokenizes with one INDENT
and one DEDENT. -/
theorem c4_witness :
    pythonTokenize "if x:\n    y\nz" = .ok
      [{ type := .KEYWORD, value := .str "if", line := 1, column := 1 },
       { type := .IDENTIFIER, value := .str "x", line := 1, column := 4 },
       { type := .COLON, value := .str ":", line := 1, column := 4 },
       { type := .NEWLINE, value := .str "\n", line := 1, column := 5 },
       { type := .INDENT, value := .int 4, line := 1, column := 1 },
       { type := .IDENTIFIER, value := .str "y", line := 1, column := 11 },
       { type := .NEWLINE, value := .str "\n", line := 1, column := 11 },
       { type := .DEDENT, value := .int 0, line := 1, column := 1 },
       { type := .IDENTIFIER, value := .str "z", line := 1, column := 13 },
       { type := .EOF, value := .none, line := 1, column := 13 }] ∧
    countTok .INDENT
      [{ type := .KEYWORD, value := .str "if", line := 1, column := 1 },
       { type := .IDENTIFIER, value := .str "x", line := 1, column := 4 },
       { type := .COLON, value := .str ":", line := 1, column := 4 },
       { type := .NEWLINE, value := .str "\n", line := 1, column := 5 },
       { type := .INDENT, value := .int 4, line := 1, column := 1 },
       { type := .IDENTIFIER, value := .str "y", line := 1, column := 11 },
       { type := .NEWLINE, value := .str "\n", line := 1, column := 11 },
       { type := .DEDENT, value := .int 0, line := 1, column := 1 },
       { type := .IDENTIFIER, value := .str "z", line := 1, column := 13 },
       { type := .EOF, value := .none, line := 1, column := 13 }] =
    countTok .DEDENT
      [{ type := .KEYWORD, value := .str "if", line := 1, column := 1 },
       { type := .IDENTIFIER, value := .str "x", line := 1, column := 4 },
       { type := .COLON, value := .str ":", line := 1, column := 4 },
       { type := .NEWLINE, value := .str "\n", line := 1, column := 5 },
       { type := .INDENT, value := .int 4, line := 1, column := 1 },
       { type := .IDENTIFIER, value := .str "y", line := 1, column := 11 },
       { type := .NEWLINE, value := .str "\n", line := 1, column := 11 },
       { type := .DEDENT, value := .int 0, line := 1, column := 1 },
       { type := .IDENTIFIER, value := .str "z", line := 1, column := 13 },
       { type := .EOF, value := .none, line := 1, column := 13 }] :=
  ⟨rfl, c4_indent_dedent_balanced "if x:\n    y\nz" _ rfl⟩

/-- C7: `is_type_compatible` holds exactly for equal type names, two
members of the numeric family, or two members of the boolean family;
in particular `("int","float")` is compatible, `("bool","int")` is not,
and `("str","str")` is. -/
theorem c7_type_compatibility_lattice :
    (∀ a b : String, isTypeCompatible a b = true ↔
      (a = b ∨
       (a ∈ ["int", "float", "double", "long", "short"] ∧
        b ∈ ["int", "float", "double", "long", "short"]) ∨
       (a ∈ ["bool", "boolean"] ∧ b ∈ ["bool", "boolean"]))) ∧
    isTypeCompatible "int" "float" = true ∧
    isTypeCompatible "bool" "int" = false ∧
    isTypeCompatible "str" "str" = true := by
  refine ⟨fun a b => ?_, by decide, by decide, by decide⟩
  unfold isTypeCompatible
  split_ifs with h1 h2 h3 <;> simp_all

/-- C8 counterexample: the claim maps every surface type string outside
the named families to `IRType.ANY`, but `map_type` sends an unmatched
non-empty string such as `"Foo"` to `IRType.OBJECT` (its final
`return IRType.OBJECT  # Default to object for custom types`), which is
a different member of the enumeration. -/
theorem c8_unknown_type_maps_to_object :
    mapType (some "Foo") = IRType.OBJECT ∧ IRType.OBJECT ≠ IRType.ANY := by
  exact ⟨by decide, by decide⟩

/-- C8 (amended): `map_type` matches case-insensitively and maps the
int/float/string/bool/void families as claimed, any other string
containing `list`, `array` or `[]` to ARRAY, an absent (`None`/empty)
annotation to ANY, and every remaining string to OBJECT (not ANY). -/
theorem c8_map_type_characterization :
    mapType none = IRType.ANY ∧
    mapType (some "") = IRType.ANY ∧
    (∀ s : String, strLower s ∈ ["int", "integer", "long", "short", "byte"] →
      mapType (some s) = IRType.INT) ∧
    (∀ s : String, strLower s ∈ ["float", "double"] → mapType (some s) = IRType.FLOAT) ∧
    (∀ s : String, strLower s ∈ ["str", "string"] → mapType (some s) = IRType.STRING) ∧
    (∀ s : String, strLower s ∈ ["bool", "boolean"] → mapType (some s) = IRType.BOOL) ∧
    (∀ s : String, strLower s ∈ ["void", "none"] → mapType (some s) = IRType.VOID) ∧
    (∀ s : String, s ≠ "" →
      strLower s ∉ ["int", "integer", "long", "short", "byte", "float", "double",
                    "str", "string", "bool", "boolean", "void", "none"] →
      (strHasSub (strLower s) "list" ∨ strHasSub (strLower s) "array" ∨
       strHasSub (strLower s) "[]") →
      mapType (some s) = IRType.ARRAY) ∧
    (∀ s : String, s ≠ "" →
      strLower s ∉ ["int", "integer", "long", "short", "byte", "float", "double",
                    "str", "string", "bool", "boolean", "void", "none"] →
      ¬ strHasSub (strLower s) "list" → ¬ strHasSub (strLower s) "array" →
      ¬ strHasSub (strLower s) "[]" →
      mapType (some s) = IRType.OBJECT) := by
  have hM : ∀ s : String, s ≠ "" → mapType (some s) = mapTypeFamilies (strLower s) := by
    intro s hne
    simp [mapType, optStrTruthy, hne]
  have hlow : strLower "" = "" := rfl
  refine ⟨by decide, by decide, ?_, ?_, ?_, ?_, ?_, ?_, ?_⟩
  · intro s hm
    have hne : s ≠ "" := by rintro rfl; rw [hlow] at hm; revert hm; decide
    rw [hM s hne]
    have h5 : strLower s = "int" ∨ strLower s = "integer" ∨ strLower s = "long" ∨
        strLower s = "short" ∨ strLower s = "byte" := by simpa using hm
    rcases h5 with h | h | h | h | h <;> rw [h] <;> decide
  · intro s hm
    have hne : s ≠ "" := by rintro rfl; rw [hlow] at hm; revert hm; decide
    rw [hM s hne]
    have h2 : strLower s = "float" ∨ strLower s = "double" := by simpa using hm
    rcases h2 with h | h <;> rw [h] <;> decide
  · intro s hm
    have hne : s ≠ "" := by rintro rfl; rw [hlow] at hm; revert hm; decide
    rw [hM s hne]
    have h2 : strLower s = "str" ∨ strLower s = "string" := by simpa using hm
    rcases h2 with h | h <;> rw [h] <;> decide
  · intro s hm
    have hne : s ≠ "" := by rintro rfl; rw [hlow] at hm; revert hm; decide
    rw [hM s hne]
    have h2 : strLower s = "bool" ∨ strLower s = "boolean" := by simpa using hm
    rcases h2 with h | h <;> rw [h] <;> decide
  · intro s hm
    have hne : s ≠ "" := by rintro rfl; rw [hlow] at hm; revert hm; decide
    rw [hM s hne]
    have h2 : strLower s = "void" ∨ strLower s = "none" := by simpa using hm
    rcases h2 with h | h <;> rw [h] <;> decide
  · intro s hne hnf hsub
    rw [hM s hne]
    simp only [List.mem_cons, List.mem_singleton, not_or] at hnf
    obtain ⟨n1, n2, n3, n4, n5, n6, n7, n8, n9, n10, n11, n12, n13⟩ := hnf
    have hb : (strHasSub (strLower s) "list" || strHasSub (strLower s) "array" ||
        strHasSub (strLower s) "[]") = true := by
      rcases hsub with h | h | h <;> simp [h]
    simp [mapTypeFamilies, n1, n2, n3, n4, n5, n6, n7, n8, n9, n10, n11, n12, n13, hb]
  · intro s hne hnf hl ha hb
    rw [hM s hne]
    simp only [List.mem_cons, List.mem_singleton, not_or] at hnf
    obtain ⟨n1, n2, n3, n4, n5, n6, n7, n8, n9, n10, n11, n12, n13⟩ := hnf
    simp only [Bool.not_eq_true] at hl ha hb
    simp [mapTypeFamilies, n1, n2, n3, n4, n5, n6, n7, n8, n9, n10, n11, n12, n13, hl, ha, hb]

/-- C8 witness: the characterization evaluated at concrete annotations.
-/
theorem c8_witness :
    mapType (some "Integer") = IRType.INT ∧
    mapType (some "Double") = IRType.FLOAT ∧
    mapType (some "int[]") = IRType.ARRAY ∧
    mapType (some "Banana") = IRType.OBJECT :=
  ⟨c8_map_type_characterization.2.2.1 "Integer" (by decide),
   c8_map_type_characterization.2.2.2.1 "Double" (by decide),
   c8_map_type_characterization.2.2.2.2.2.2.2.1 "int[]" (by decide) (by decide)
     (Or.inr (Or.inr (by decide))),
   c8_map_type_characterization.2.2.2.2.2.2.2.2 "Banana" (by decide) (by decide)
     (by decide) (by decide) (by decide)⟩

theorem jAdvance_tokens (s : JPState) : (jAdvance s).tokens = s.tokens := rfl

theorem jRestore_tokens (s : JPState) (p : Nat) : (jRestore s p).tokens = s.tokens := rfl

theorem skipModifiers_tokens (f : Nat) (s : JPState) :
    (skipModifiers f s).tokens = s.tokens := by
  induction f generalizing s with
  | zero => rfl
  | succ f ih =>
    unfold skipModifiers
    cases s.current with
    | none => rfl
    | some t =>
      dsimp only
      split
      · rw [ih, jAdvance_tokens]
      · rfl

/-- C9: whenever the Variant-J method-vs-field lookahead answers
`false`, the parser position and current token are exactly what they
were before the call (the lookahead consumes nothing on a negative
answer). -/
theorem c9_negative_lookahead_restores_cursor
    (f : Nat) (s : JPState)
    (hcur : s.current = s.tokens[s.position]?)
    (hres : (isMethodDeclaration f s).1 = false) :
    (isMethodDeclaration f s).2 = s := by
  clear hres
  obtain ⟨toks, pos, cur⟩ := s
  have ht1 : (skipModifiers f ⟨toks, pos, cur⟩).tokens = toks :=
    skipModifiers_tokens f ⟨toks, pos, cur⟩
  simp only at hcur
  subst hcur
  unfold isMethodDeclaration
  dsimp only
  split
  · split
    · simp [jRestore, jAdvance_tokens, ht1]
    · simp [jRestore, jAdvance_tokens, ht1]
  · simp [jRestore, ht1]

/-- C9 witness: on the token stream `int x = ...`, the lookahead answers
`false` and the cursor is restored. -/
theorem c9_witness :
    ((isMethodDeclaration 10
        { tokens := [{ type := .KEYWORD, value := .str "int", line := 1, column := 1 },
                     { type := .IDENTIFIER, value := .str "x", line := 1, column := 5 },
                     { type := .ASSIGN, value := .str "=", line := 1, column := 7 }],
          position := 0,
          current := some { type := .KEYWORD, value := .str "int", line := 1, column := 1 } }).2 =
      { tokens := [{ type := .KEYWORD, value := .str "int", line := 1, column := 1 },
                   { type := .IDENTIFIER, value := .str "x", line := 1, column := 5 },
                   { type := .ASSIGN, value := .str "=", line := 1, column := 7 }],
        position := 0,
        current := some { type := .KEYWORD, value := .str "int", line := 1, column := 1 } }) :=
  c9_negative_lookahead_restores_cursor 10 _ (by decide) (by decide)

/-- C10: the Variant-P and Variant-C emitters walk only the `globals`,
`classes` and `functions` lists of the IR program: their output is
independent of the `main_body` attribute, so top-level main-body
statements never appear in P or C target output.  (`CppGenerator`
defines `generate_main` — `cppGenerateMain` above — but its inherited
`generate` never invokes it, and `PythonGenerator.generate` only appends
the `main`-call trailer to the base output.) -/
theorem c10_emitters_ignore_main_body :
    ∀ (p : IRProgram) (mb : Option (List IRNode)),
      cppGenerate { p with mainBody := mb } = cppGenerate p ∧
      pyGenerate { p with mainBody := mb } = pyGenerate p := by
  intro p mb
  cases p
  exact ⟨rfl, rfl⟩

theorem find?_assocSet {α : Type} (l : List (String × α)) (k : String) (v : α) :
    (assocSet l k v).find? (fun p => p.1 = k) = some (k, v) := by
  induction l with
  | nil => simp [assocSet]
  | cons kv rest ih =>
    obtain ⟨k0, v0⟩ := kv
    unfold assocSet
    split
    · simp
    · rename_i hne
      simp only [List.find?_cons]
      have hd : decide (k0 = k) = false := by simp [hne]
      rw [hd]
      exact ih

theorem stLookup_stDefine (chain : List TCScope) (sym : Symbol) (hne : chain ≠ []) :
    stLookup (stDefine chain sym) sym.name = some sym := by
  cases chain with
  | nil => exact absurd rfl hne
  | cons sc rest =>
    unfold stDefine stLookup scopeGet
    simp [find?_assocSet]

/-- C5: visiting an Assignment whose target resolves to no symbol in any
enclosing scope: under Variant-P (`language = "python"`) the checker
visits the value, defines the target as a new variable symbol carrying
the value type, and appends no error of its own (the error list is
exactly the one the value sub-visit produced); under any other variant
it appends the undefined-variable error, visits nothing, and defines
nothing (the table is untouched and the target stays unresolved). -/
theorem c5_assignment_undefined_target
    (s : TCState) (target : String) (value : ASTNode) (op : String) (line col : Int)
    (hlk : stLookup s.chain target = none) :
    (s.language = "python" →
      (tcVisit s (.assignment target value op line col)).2.errors
        = (tcVisit s value).2.errors ∧
      (tcVisit s (.assignment target value op line col)).2.chain
        = stDefine (tcVisit s value).2.chain
            (Symbol.make target .var (tcVisit s value).1 none line col) ∧
      ((tcVisit s value).2.chain ≠ [] →
        stLookup (tcVisit s (.assignment target value op line col)).2.chain target
          = some (Symbol.make target .var (tcVisit s value).1 none line col))) ∧
    (s.language ≠ "python" →
      (tcVisit s (.assignment target value op line col)).2.errors
        = s.errors ++ ["Variable \x27" ++ target ++ "\x27 is not defined"] ∧
      (tcVisit s (.assignment target value op line col)).2.chain = s.chain ∧
      stLookup (tcVisit s (.assignment target value op line col)).2.chain target = none) := by
  constructor
  · intro hlang
    have e1 : tcVisit s (.assignment target value op line col)
        = (none, { (tcVisit s value).2 with
                   chain := stDefine (tcVisit s value).2.chain
                     (Symbol.make target .var (tcVisit s value).1 none line col) }) := by
      rw [tcVisit.eq_def]
      dsimp only
      rw [hlk]
      dsimp only
      rw [if_pos hlang]
    rw [e1]
    refine ⟨rfl, rfl, fun hch => ?_⟩
    exact stLookup_stDefine (tcVisit s value).2.chain
      (Symbol.make target .var (tcVisit s value).1 none line col) hch
  · intro hlang
    have e2 : tcVisit s (.assignment target value op line col)
        = (none, addErr s ("Variable \x27" ++ target ++ "\x27 is not defined")) := by
      rw [tcVisit.eq_def]
      dsimp only
      rw [hlk]
      dsimp only
      rw [if_neg hlang]
    rw [e2]
    exact ⟨rfl, rfl, hlk⟩

/-- C5 witness: with a fresh checker and value `5`, assigning to the
undefined `x` defines it under Variant-P with no error, while under
Variant-J it is reported undefined. -/
theorem c5_witness :
    stLookup (tcInit "python").chain "x" = none ∧
    (tcVisit (tcInit "python") (.assignment "x" (.literal (.int 5) "int") "=" 1 1)).2.errors
      = (tcVisit (tcInit "python") (.literal (.int 5) "int")).2.errors ∧
    stLookup
      (tcVisit (tcInit "python") (.assignment "x" (.literal (.int 5) "int") "=" 1 1)).2.chain
      "x" = some (Symbol.make "x" .var
        (tcVisit (tcInit "python") (.literal (.int 5) "int")).1 none 1 1) ∧
    (tcVisit (tcInit "java") (.assignment "x" (.literal (.int 5) "int") "=" 1 1)).2.errors
      = (tcInit "java").errors ++ ["Variable \x27x\x27 is not defined"] := by
  have hp := c5_assignment_undefined_target (tcInit "python") "x"
    (.literal (.int 5) "int") "=" 1 1 rfl
  have hj := c5_assignment_undefined_target (tcInit "java") "x"
    (.literal (.int 5) "int") "=" 1 1 rfl
  have hplang : (tcInit "python").language = "python" := by decide
  have hjlang : (tcInit "java").language ≠ "python" := by decide
  have hchain : (tcVisit (tcInit "python") (.literal (.int 5) "int")).2.chain ≠ [] := by
    simp [tcVisit, tcInit]
  exact ⟨rfl, (hp.1 hplang).1, (hp.1 hplang).2.2 hchain, (hj.2 hjlang).1⟩

/-- C6 counterexample: the claim states that an exception raised during
the program walk becomes the *sole* reported error, the accumulated list
being discarded (length exactly one).  The `except SemanticError` clause
appends `str(e)` to `self.errors` without clearing it: on a walk outcome
that leaves one accumulated error and then raises, the reported list
keeps both entries. -/
theorem c6_handler_keeps_accumulated_errors :
    (checkHandleOutcome (.error ("internal failure",
        { tcInit "python" with errors := ["first error"] }))).errors =
      ["first error", "internal failure"] := rfl

/-- C6 (amended): `check` catches a `SemanticError` from the top-level
walk once and *appends* its message to the errors accumulated up to the
raise (retaining them, so the list length is the accumulated count plus
one); and since no analyzer code path ever raises `SemanticError`, the
handler is unreachable on actual runs — `check` always returns exactly
the error list the walk accumulated. -/
theorem c6_check_exception_handling :
    (∀ (e : String) (s1 : TCState),
      (checkHandleOutcome (.error (e, s1))).errors = s1.errors ++ [e] ∧
      (checkHandleOutcome (.error (e, s1))).errors.length = s1.errors.length + 1) ∧
    (∀ (s : TCState) (stmts : List ASTNode),
      (tcCheck s stmts).2.errors =
        (tcVisitSeq { s with errors := [], warnings := [] } stmts).errors) := by
  constructor
  · intro e s1
    constructor
    · rfl
    · simp [checkHandleOutcome]
  · intro s stmts
    rfl

end SyShift
